import Mathlib

/-!
Cellular automaton engine (`src/main.cpp`, class `GameOfLife`).

A shallow embedding of the automaton engine: the two grid buffers, neighbour
counting under the two boundary conditions, the two rules, the generation step
and the pattern initialisers.

Modelling conventions.

* `std::vector<std::vector<bool>>` is a `List (List Bool)`; the outer index is
  the row `y`, the inner index the column `x`, as in `grid[y][x]`.
* C++ `int` values are mathematical integers (`Int`).  For in-range cells all
  coordinate arithmetic of the engine stays inside `[-1, 400]`; signed overflow
  is undefined behaviour in C++ and has no counterpart here.
* C++ `%` truncates towards zero, so it is `Int.tmod`.
* An indexed read `grid[y][x]` is `readCell`, which answers `none` when the
  index is outside the vector (undefined behaviour in C++); an indexed write is
  `writeCell`.
* `for (int i = 0; i < n; i++)` is `forRange n`.
* A sequence of public calls is a list of `Op` values run by `run`.
* `updateInPlace` is not code of the engine: it is the in-place variant of the
  step that the specification contrasts with `update`.
-/

namespace GameOfLife

/-- Width of the simulation space (`const int GRID_WIDTH = 200`). -/
def GRID_WIDTH : Int := 200

/-- Height of the simulation space (`const int GRID_HEIGHT = 200`). -/
def GRID_HEIGHT : Int := 200

/-- Boundary conditions (`enum BoundaryCondition`). -/
inductive BoundaryCondition where
  | PERIODIC
  | REFLECTIVE
  deriving DecidableEq, Repr

/-- Rules (`enum Rule`). -/
inductive Rule where
  | CONWAY
  | CUSTOM
  deriving DecidableEq, Repr

/-- A buffer of cells, `std::vector<std::vector<bool>>`, rows first. -/
abbrev Grid := List (List Bool)

/-- The private members of `class GameOfLife`. -/
structure State where
  grid : Grid
  nextGrid : Grid
  boundaryCondition : BoundaryCondition
  currentRule : Rule
  generation : Int
  deriving DecidableEq, Repr

/-- The indexed read `g[y][x]`; `none` when an index is outside the vector. -/
def readCell (g : Grid) (x y : Int) : Option Bool :=
  if 0 ≤ x ∧ 0 ≤ y then (g[y.toNat]?).bind (fun row => row[x.toNat]?) else none

/-- The indexed write `g[y][x] = v`; nothing is written when an index is
outside the vector. -/
def writeCell (g : Grid) (x y : Int) (v : Bool) : Grid :=
  if 0 ≤ x ∧ 0 ≤ y then
    match g[y.toNat]? with
    | some row => g.set y.toNat (row.set x.toNat v)
    | none => g
  else g

/-- The counting loop `for (int i = 0; i < n; i++) body`, threading the
mutated value through the iterations. -/
def forRange {σ : Type} (n : Nat) (body : Int → σ → σ) (init : σ) : σ :=
  (List.range n).foldl (fun acc i => body (i : Int) acc) init

/-- The constructor: both buffers `GRID_HEIGHT` rows of `GRID_WIDTH` dead
cells, generation 0, `PERIODIC`, `CONWAY`. -/
def new : State :=
  { grid := List.replicate GRID_HEIGHT.toNat (List.replicate GRID_WIDTH.toNat false)
    nextGrid := List.replicate GRID_HEIGHT.toNat (List.replicate GRID_WIDTH.toNat false)
    boundaryCondition := BoundaryCondition.PERIODIC
    currentRule := Rule.CONWAY
    generation := 0 }

/-- The method `clear()`: every cell of `grid` is written dead in raster order,
then the generation is reset. -/
def clear (s : State) : State :=
  { s with
    grid := forRange GRID_HEIGHT.toNat (fun y g =>
      forRange GRID_WIDTH.toNat (fun x g => writeCell g x y false) g) s.grid
    generation := 0 }

/-- The method `setCell(x, y, alive)`. -/
def setCell (s : State) (x y : Int) (alive : Bool) : State :=
  if 0 ≤ x ∧ x < GRID_WIDTH ∧ 0 ≤ y ∧ y < GRID_HEIGHT then
    { s with grid := writeCell s.grid x y alive }
  else s

/-- The method `getCell(x, y)`. -/
def getCell (s : State) (x y : Int) : Bool :=
  if 0 ≤ x ∧ x < GRID_WIDTH ∧ 0 ≤ y ∧ y < GRID_HEIGHT then
    readCell s.grid x y = some true
  else false

/-- The method `setBoundaryCondition(bc)`. -/
def setBoundaryCondition (s : State) (bc : BoundaryCondition) : State :=
  { s with boundaryCondition := bc }

/-- The method `setRule(rule)`. -/
def setRule (s : State) (rule : Rule) : State :=
  { s with currentRule := rule }

/-- The method `countNeighbors(x, y)`: the two nested loops over `dy` and `dx`
in `-1..1`, skipping the centre. -/
def countNeighbors (s : State) (x y : Int) : Int :=
  [-1, 0, 1].foldl (fun count dy =>
    [-1, 0, 1].foldl (fun count dx =>
      if dx = 0 ∧ dy = 0 then count
      else
        let nx := x + dx
        let ny := y + dy
        match s.boundaryCondition with
        | BoundaryCondition.PERIODIC =>
          let nx := (nx + GRID_WIDTH).tmod GRID_WIDTH
          let ny := (ny + GRID_HEIGHT).tmod GRID_HEIGHT
          if readCell s.grid nx ny = some true then count + 1 else count
        | BoundaryCondition.REFLECTIVE =>
          if 0 ≤ nx ∧ nx < GRID_WIDTH ∧ 0 ≤ ny ∧ ny < GRID_HEIGHT then
            if readCell s.grid nx ny = some true then count + 1 else count
          else count) count) 0

/-- The method `applyConwayRule(alive, neighbors)`. -/
def applyConwayRule (alive : Bool) (neighbors : Int) : Bool :=
  if alive then
    neighbors = 2 || neighbors = 3
  else
    neighbors = 3

/-- The method `applyCustomRule(alive, neighbors)`. -/
def applyCustomRule (alive : Bool) (neighbors : Int) : Bool :=
  if alive then
    neighbors = 2 || neighbors = 3
  else
    neighbors = 3 || neighbors = 6

/-- The method `update()`: the raster pass writes every new cell into
`nextGrid`, reading only `grid`; then the buffers are swapped and the
generation is incremented. -/
def update (s : State) : State :=
  let nextGrid := forRange GRID_HEIGHT.toNat (fun y ng =>
    forRange GRID_WIDTH.toNat (fun x ng =>
      let neighbors := countNeighbors s x y
      let alive : Bool := readCell s.grid x y = some true
      if s.currentRule = Rule.CONWAY then
        writeCell ng x y (applyConwayRule alive neighbors)
      else
        writeCell ng x y (applyCustomRule alive neighbors)) ng) s.nextGrid
  { s with grid := nextGrid, nextGrid := s.grid, generation := s.generation + 1 }

/-- The method `initGlider(startX, startY)`. -/
def initGlider (s : State) (startX startY : Int) : State :=
  let s := clear s
  let s := setCell s (startX + 1) startY true
  let s := setCell s (startX + 2) (startY + 1) true
  let s := setCell s startX (startY + 2) true
  let s := setCell s (startX + 1) (startY + 2) true
  setCell s (startX + 2) (startY + 2) true

/-- The method `initBlock(startX, startY)`. -/
def initBlock (s : State) (startX startY : Int) : State :=
  let s := clear s
  let s := setCell s startX startY true
  let s := setCell s (startX + 1) startY true
  let s := setCell s startX (startY + 1) true
  setCell s (startX + 1) (startY + 1) true

/-- The method `initPentadecathlon(startX, startY)`: a first placement loop, a
second `clear()`, then the twelve literal `setCell` calls. -/
def initPentadecathlon (s : State) (startX startY : Int) : State :=
  let s := clear s
  let s := forRange 10 (fun i s =>
    if i = 2 ∨ i = 7 then
      let s := setCell s (startX - 1) (startY + i) true
      setCell s (startX + 1) (startY + i) true
    else
      setCell s startX (startY + i) true) s
  let s := clear s
  let s := setCell s startX startY true
  let s := setCell s startX (startY + 1) true
  let s := setCell s (startX - 1) (startY + 2) true
  let s := setCell s (startX + 1) (startY + 2) true
  let s := setCell s startX (startY + 3) true
  let s := setCell s startX (startY + 4) true
  let s := setCell s startX (startY + 5) true
  let s := setCell s startX (startY + 6) true
  let s := setCell s (startX - 1) (startY + 7) true
  let s := setCell s (startX + 1) (startY + 7) true
  let s := setCell s startX (startY + 8) true
  setCell s startX (startY + 9) true

/-- The method `initRPentomino(startX, startY)`. -/
def initRPentomino (s : State) (startX startY : Int) : State :=
  let s := clear s
  let s := setCell s (startX + 1) startY true
  let s := setCell s (startX + 2) startY true
  let s := setCell s startX (startY + 1) true
  let s := setCell s (startX + 1) (startY + 1) true
  setCell s (startX + 1) (startY + 2) true

/-- The method `getGeneration()`. -/
def getGeneration (s : State) : Int := s.generation

/-- The buffer shape the constructor establishes: `GRID_HEIGHT` rows, each of
`GRID_WIDTH` cells. -/
def WellFormed (g : Grid) : Prop :=
  g.map List.length = List.replicate GRID_HEIGHT.toNat GRID_WIDTH.toNat

instance (g : Grid) : Decidable (WellFormed g) := by
  unfold WellFormed; infer_instance

/-- Coordinates inside `[0, GRID_WIDTH) × [0, GRID_HEIGHT)`. -/
def InRange (x y : Int) : Prop :=
  0 ≤ x ∧ x < GRID_WIDTH ∧ 0 ≤ y ∧ y < GRID_HEIGHT

instance (x y : Int) : Decidable (InRange x y) := by
  unfold InRange; infer_instance

/-! Definitions used to state and prove the properties. -/

/-- One raster pass writing `f x y` into every cell of the buffer. -/
def rasterPass (f : Int → Int → Bool) (g : Grid) : Grid :=
  forRange GRID_HEIGHT.toNat (fun y g =>
    forRange GRID_WIDTH.toNat (fun x g => writeCell g x y (f x y)) g) g

/-- The value `update` writes for cell `(x, y)`: the current rule applied to
the cell of the current grid and its neighbour count. -/
def nextCell (s : State) (x y : Int) : Bool :=
  if s.currentRule = Rule.CONWAY then
    applyConwayRule (decide (readCell s.grid x y = some true)) (countNeighbors s x y)
  else
    applyCustomRule (decide (readCell s.grid x y = some true)) (countNeighbors s x y)

/-- The eight Moore-neighbourhood offsets `(dx, dy)`, in the order the loops of
`countNeighbors` visit them. -/
def mooreOffsets : List (Int × Int) :=
  [(-1, -1), (0, -1), (1, -1), (-1, 0), (1, 0), (-1, 1), (0, 1), (1, 1)]

/-- What one neighbour offset adds to the count in `countNeighbors`. -/
def contribution (s : State) (x y dx dy : Int) : Int :=
  match s.boundaryCondition with
  | BoundaryCondition.PERIODIC =>
    if readCell s.grid ((x + dx + GRID_WIDTH).tmod GRID_WIDTH)
        ((y + dy + GRID_HEIGHT).tmod GRID_HEIGHT) = some true then 1 else 0
  | BoundaryCondition.REFLECTIVE =>
    if 0 ≤ x + dx ∧ x + dx < GRID_WIDTH ∧ 0 ≤ y + dy ∧ y + dy < GRID_HEIGHT then
      if readCell s.grid (x + dx) (y + dy) = some true then 1 else 0
    else 0

/-- A pattern given by the list of its live cells, in window coordinates. -/
def pat (L : List (Nat × Nat)) (a b : Nat) : Bool := L.contains (a, b)

/-- The eight neighbour offsets on the 200 by 200 torus, with `-1` written as
`199`, in the order of `mooreOffsets`. -/
def torusOffsets : List (Nat × Nat) :=
  [(199, 199), (0, 199), (1, 199), (199, 0), (1, 0), (199, 1), (0, 1), (1, 1)]

/-- Number of live torus neighbours of window cell `(a, b)` in the pattern. -/
def torusCount (L : List (Nat × Nat)) (a b : Nat) : Int :=
  ((torusOffsets.filter (fun e => pat L ((a + e.1) % 200) ((b + e.2) % 200))).length : Int)

/-- One Conway step of the pattern at window cell `(a, b)` on the torus. -/
def torusNext (L : List (Nat × Nat)) (a b : Nat) : Bool :=
  applyConwayRule (pat L a b) (torusCount L a b)

/-- Every live cell of the pattern lies in `[1, kx] × [1, ky]`. -/
def inBox (kx ky : Nat) (L : List (Nat × Nat)) : Bool :=
  L.all (fun p => decide (1 ≤ p.1 ∧ p.1 ≤ kx ∧ 1 ≤ p.2 ∧ p.2 ≤ ky))

/-- The finite check that one torus step takes pattern `L` to pattern `L2`: both
lie in the box and the step agrees with `L2` on the box and its one-cell rim. -/
def windowStep (kx ky : Nat) (L L2 : List (Nat × Nat)) : Bool :=
  inBox kx ky L && inBox kx ky L2 &&
    (List.range (kx + 2)).all (fun a =>
      (List.range (ky + 2)).all (fun b => torusNext L a b == pat L2 a b))

/-- The grid of `s` shows pattern `L` on the torus, window origin `(ox, oy)`. -/
def Shows (s : State) (ox oy : Int) (L : List (Nat × Nat)) : Prop :=
  ∀ x y : Int, InRange x y →
    getCell s x y = pat L ((x - ox) % 200).toNat ((y - oy) % 200).toNat

/-- Setting a list of cells alive, one `setCell` call after the other. -/
def setCells (s : State) (cells : List (Int × Int)) : State :=
  cells.foldl (fun s p => setCell s p.1 p.2 true) s

/-- A pattern on the unbounded plane, given by the list of its live cells. -/
def planePat (L : List (Int × Int)) (a b : Int) : Bool := L.contains (a, b)

/-- Number of live plane neighbours of cell `(a, b)` in the pattern. -/
def planeCount (L : List (Int × Int)) (a b : Int) : Int :=
  ((mooreOffsets.filter (fun d => planePat L (a + d.1) (b + d.2))).length : Int)

/-- One Conway step of the pattern at plane cell `(a, b)`. -/
def planeNext (L : List (Int × Int)) (a b : Int) : Bool :=
  applyConwayRule (planePat L a b) (planeCount L a b)

/-- Every live cell of the plane pattern lies in `[1, k] × [1, k]`. -/
def planeBox (k : Nat) (L : List (Int × Int)) : Bool :=
  L.all (fun p => decide (1 ≤ p.1 ∧ p.1 ≤ (k : Int) ∧ 1 ≤ p.2 ∧ p.2 ≤ (k : Int)))

/-- The finite check that one plane step takes pattern `L` to pattern `L2`. -/
def planeWindowStep (k : Nat) (L L2 : List (Int × Int)) : Bool :=
  planeBox k L && planeBox k L2 &&
    (List.range (k + 2)).all (fun a =>
      (List.range (k + 2)).all (fun b =>
        planeNext L (a : Int) (b : Int) == planePat L2 (a : Int) (b : Int)))

/-- The grid of `s` shows plane pattern `L` with origin `(ox, oy)`; cells
outside the grid count as dead. -/
def PlaneShows (s : State) (ox oy : Int) (L : List (Int × Int)) : Prop :=
  ∀ x y : Int, getCell s x y = planePat L (x - ox) (y - oy)

/-- The block as `initBlock` places it, in torus window coordinates whose origin
is the anchor moved by `(-1, -1)`. -/
def blockTorus : List (Nat × Nat) := [(1, 1), (2, 1), (1, 2), (2, 2)]

/-- The block in plane coordinates relative to the anchor moved by `(-1, -1)`. -/
def blockPlane : List (Int × Int) := [(1, 1), (2, 1), (1, 2), (2, 2)]

/-- The facts about a state that one `update` under the Conway rule keeps. -/
structure Running (s : State) (bc : BoundaryCondition) : Prop where
  grid : WellFormed s.grid
  nextGrid : WellFormed s.nextGrid
  rule : s.currentRule = Rule.CONWAY
  boundary : s.boundaryCondition = bc

/-! Definitions for the pentadecathlon, the initialisers, operation sequences and the
in-place variant of the step. -/

/-- A pattern stored as one bit mask per window row: bit `a` of row `b`. -/
def look (R : List Nat) (a b : Nat) : Bool := (R.getD b 0).testBit a

/-- One Conway step on the torus at window cell `(a, b)`, for any cell
predicate `P`. -/
def torusNextP (P : Nat → Nat → Bool) (a b : Nat) : Bool :=
  applyConwayRule (P a b)
    ((torusOffsets.filter (fun e => P ((a + e.1) % 200) ((b + e.2) % 200))).length : Int)

/-- The finite check that the row masks `R` hold exactly the cells of the list
`L`, which lies in the box `[1, kx] × [1, ky]`. -/
def agree (kx ky : Nat) (L : List (Nat × Nat)) (R : List Nat) : Bool :=
  inBox kx ky L && decide (R.length ≤ ky + 1) && R.all (fun r => decide (r < 2 ^ (kx + 1))) &&
    (List.range (kx + 2)).all (fun a =>
      (List.range (ky + 2)).all (fun b => pat L a b == look R a b))

/-- The window check of one torus step, on row masks. -/
def fastStep (kx ky : Nat) (R R2 : List Nat) : Bool :=
  (List.range (kx + 2)).all (fun a =>
    (List.range (ky + 2)).all (fun b => torusNextP (look R) a b == look R2 a b))

/-- The pentadecathlon as `initPentadecathlon` places it, in window coordinates whose
origin is the anchor moved by `(-5, -4)`. -/
def pentaGen0 : List (Nat × Nat) :=
  [(5, 4), (5, 5), (4, 6), (6, 6), (5, 7), (5, 8), (5, 9), (5, 10), (4, 11), (6, 11), (5,
    12), (5, 13)]

/-- The pentadecathlon after 1 step. -/
def pentaGen1 : List (Nat × Nat) :=
  [(4, 5), (5, 5), (6, 5), (4, 6), (6, 6), (4, 7), (5, 7), (6, 7), (4, 8), (5, 8), (6, 8),
    (4, 9), (5, 9), (6, 9), (4, 10), (5, 10), (6, 10), (4, 11), (6, 11), (4, 12), (5, 12), (6,
    12)]

/-- The pentadecathlon after 2 steps. -/
def pentaGen2 : List (Nat × Nat) :=
  [(5, 4), (4, 5), (6, 5), (3, 6), (7, 6), (3, 7), (7, 7), (3, 8), (7, 8), (3, 9), (7, 9),
    (3, 10), (7, 10), (3, 11), (7, 11), (4, 12), (6, 12), (5, 13)]

/-- The pentadecathlon after 3 steps. -/
def pentaGen3 : List (Nat × Nat) :=
  [(5, 4), (4, 5), (5, 5), (6, 5), (3, 6), (4, 6), (6, 6), (7, 6), (2, 7), (3, 7), (4, 7),
    (6, 7), (7, 7), (8, 7), (2, 8), (3, 8), (4, 8), (6, 8), (7, 8), (8, 8), (2, 9), (3, 9),
    (4, 9), (6, 9), (7, 9), (8, 9), (2, 10), (3, 10), (4, 10), (6, 10), (7, 10), (8, 10), (3,
    11), (4, 11), (6, 11), (7, 11), (4, 12), (5, 12), (6, 12), (5, 13)]

/-- The pentadecathlon after 4 steps. -/
def pentaGen4 : List (Nat × Nat) :=
  [(4, 4), (5, 4), (6, 4), (3, 5), (7, 5), (2, 6), (8, 6), (1, 8), (9, 8), (1, 9), (9, 9),
    (2, 11), (8, 11), (3, 12), (7, 12), (4, 13), (5, 13), (6, 13)]

/-- The pentadecathlon after 5 steps. -/
def pentaGen5 : List (Nat × Nat) :=
  [(5, 3), (4, 4), (5, 4), (6, 4), (3, 5), (4, 5), (5, 5), (6, 5), (7, 5), (3, 12), (4, 12),
    (5, 12), (6, 12), (7, 12), (4, 13), (5, 13), (6, 13), (5, 14)]

/-- The pentadecathlon after 6 steps. -/
def pentaGen6 : List (Nat × Nat) :=
  [(4, 3), (5, 3), (6, 3), (3, 4), (7, 4), (3, 5), (7, 5), (4, 6), (5, 6), (6, 6), (4, 11),
    (5, 11), (6, 11), (3, 12), (7, 12), (3, 13), (7, 13), (4, 14), (5, 14), (6, 14)]

/-- The pentadecathlon after 7 steps. -/
def pentaGen7 : List (Nat × Nat) :=
  [(5, 2), (4, 3), (5, 3), (6, 3), (3, 4), (5, 4), (7, 4), (3, 5), (5, 5), (7, 5), (4, 6),
    (5, 6), (6, 6), (5, 7), (5, 10), (4, 11), (5, 11), (6, 11), (3, 12), (5, 12), (7, 12), (3,
    13), (5, 13), (7, 13), (4, 14), (5, 14), (6, 14), (5, 15)]

/-- The pentadecathlon after 8 steps. -/
def pentaGen8 : List (Nat × Nat) :=
  [(4, 2), (5, 2), (6, 2), (3, 4), (7, 4), (3, 5), (7, 5), (4, 7), (5, 7), (6, 7), (4, 10),
    (5, 10), (6, 10), (3, 12), (7, 12), (3, 13), (7, 13), (4, 15), (5, 15), (6, 15)]

/-- The pentadecathlon after 9 steps. -/
def pentaGen9 : List (Nat × Nat) :=
  [(5, 1), (5, 2), (4, 3), (5, 3), (6, 3), (4, 6), (5, 6), (6, 6), (5, 7), (5, 8), (5, 9),
    (5, 10), (4, 11), (5, 11), (6, 11), (4, 14), (5, 14), (6, 14), (5, 15), (5, 16)]

/-- The pentadecathlon after 10 steps. -/
def pentaGen10 : List (Nat × Nat) :=
  [(4, 3), (5, 3), (6, 3), (5, 4), (5, 5), (4, 6), (5, 6), (6, 6), (4, 8), (5, 8), (6, 8),
    (4, 9), (5, 9), (6, 9), (4, 11), (5, 11), (6, 11), (5, 12), (5, 13), (4, 14), (5, 14), (6,
    14)]

/-- The pentadecathlon after 11 steps. -/
def pentaGen11 : List (Nat × Nat) :=
  [(5, 2), (4, 3), (5, 3), (6, 3), (4, 6), (5, 6), (6, 6), (4, 8), (6, 8), (4, 9), (6, 9),
    (4, 11), (5, 11), (6, 11), (4, 14), (5, 14), (6, 14), (5, 15)]

/-- The pentadecathlon after 12 steps. -/
def pentaGen12 : List (Nat × Nat) :=
  [(4, 2), (5, 2), (6, 2), (4, 3), (5, 3), (6, 3), (5, 4), (5, 5), (5, 6), (4, 7), (6, 7),
    (4, 10), (6, 10), (5, 11), (5, 12), (5, 13), (4, 14), (5, 14), (6, 14), (4, 15), (5, 15),
    (6, 15)]

/-- The pentadecathlon after 13 steps. -/
def pentaGen13 : List (Nat × Nat) :=
  [(5, 1), (4, 2), (6, 2), (4, 5), (5, 5), (6, 5), (4, 6), (5, 6), (6, 6), (5, 7), (5, 10),
    (4, 11), (5, 11), (6, 11), (4, 12), (5, 12), (6, 12), (4, 15), (6, 15), (5, 16)]

/-- The pentadecathlon after 14 steps. -/
def pentaGen14 : List (Nat × Nat) :=
  [(5, 1), (5, 2), (5, 4), (4, 5), (6, 5), (4, 7), (5, 7), (6, 7), (4, 10), (5, 10), (6,
    10), (4, 12), (6, 12), (5, 13), (5, 15), (5, 16)]

/-- Row masks of `pentaGen0`. -/
def pentaRows0 : List Nat :=
  [0, 0, 0, 0, 32, 32, 80, 32, 32, 32, 32, 80, 32, 32, 0, 0, 0]

/-- Row masks of `pentaGen1`. -/
def pentaRows1 : List Nat :=
  [0, 0, 0, 0, 0, 112, 80, 112, 112, 112, 112, 80, 112, 0, 0, 0, 0]

/-- Row masks of `pentaGen2`. -/
def pentaRows2 : List Nat :=
  [0, 0, 0, 0, 32, 80, 136, 136, 136, 136, 136, 136, 80, 32, 0, 0, 0]

/-- Row masks of `pentaGen3`. -/
def pentaRows3 : List Nat :=
  [0, 0, 0, 0, 32, 112, 216, 476, 476, 476, 476, 216, 112, 32, 0, 0, 0]

/-- Row masks of `pentaGen4`. -/
def pentaRows4 : List Nat :=
  [0, 0, 0, 0, 112, 136, 260, 0, 514, 514, 0, 260, 136, 112, 0, 0, 0]

/-- Row masks of `pentaGen5`. -/
def pentaRows5 : List Nat :=
  [0, 0, 0, 32, 112, 248, 0, 0, 0, 0, 0, 0, 248, 112, 32, 0, 0]

/-- Row masks of `pentaGen6`. -/
def pentaRows6 : List Nat :=
  [0, 0, 0, 112, 136, 136, 112, 0, 0, 0, 0, 112, 136, 136, 112, 0, 0]

/-- Row masks of `pentaGen7`. -/
def pentaRows7 : List Nat :=
  [0, 0, 32, 112, 168, 168, 112, 32, 0, 0, 32, 112, 168, 168, 112, 32, 0]

/-- Row masks of `pentaGen8`. -/
def pentaRows8 : List Nat :=
  [0, 0, 112, 0, 136, 136, 0, 112, 0, 0, 112, 0, 136, 136, 0, 112, 0]

/-- Row masks of `pentaGen9`. -/
def pentaRows9 : List Nat :=
  [0, 32, 32, 112, 0, 0, 112, 32, 32, 32, 32, 112, 0, 0, 112, 32, 32]

/-- Row masks of `pentaGen10`. -/
def pentaRows10 : List Nat :=
  [0, 0, 0, 112, 32, 32, 112, 0, 112, 112, 0, 112, 32, 32, 112, 0, 0]

/-- Row masks of `pentaGen11`. -/
def pentaRows11 : List Nat :=
  [0, 0, 32, 112, 0, 0, 112, 0, 80, 80, 0, 112, 0, 0, 112, 32, 0]

/-- Row masks of `pentaGen12`. -/
def pentaRows12 : List Nat :=
  [0, 0, 112, 112, 32, 32, 32, 80, 0, 0, 80, 32, 32, 32, 112, 112, 0]

/-- Row masks of `pentaGen13`. -/
def pentaRows13 : List Nat :=
  [0, 32, 80, 0, 0, 112, 112, 32, 0, 0, 32, 112, 112, 0, 0, 80, 32]

/-- Row masks of `pentaGen14`. -/
def pentaRows14 : List Nat :=
  [0, 32, 32, 0, 32, 80, 0, 112, 0, 0, 112, 0, 80, 32, 0, 32, 32]

/-- The state `initPentadecathlon` reaches after its first `clear` and its
placement loop, before the second `clear`. -/
def pentaLoop (s : State) (startX startY : Int) : State :=
  forRange 10 (fun i s =>
    if i = 2 ∨ i = 7 then
      let s := setCell s (startX - 1) (startY + i) true
      setCell s (startX + 1) (startY + i) true
    else
      setCell s startX (startY + i) true) (clear s)

/-- The twelve cells of the pentadecathlon, in the order of the `setCell` calls. -/
def pentaCells (sx sy : Int) : List (Int × Int) :=
  [(sx, sy), (sx, sy + 1), (sx - 1, sy + 2), (sx + 1, sy + 2), (sx, sy + 3), (sx, sy + 4),
    (sx, sy + 5), (sx, sy + 6), (sx - 1, sy + 7), (sx + 1, sy + 7), (sx, sy + 8), (sx, sy + 9)]

/-- The offsets `initGlider` sets alive, relative to the anchor. -/
def gliderOffsets : List (Int × Int) := [(1, 0), (2, 1), (0, 2), (1, 2), (2, 2)]

/-- The offsets `initBlock` sets alive, relative to the anchor. -/
def blockOffsets : List (Int × Int) := [(0, 0), (1, 0), (0, 1), (1, 1)]

/-- The offsets `initRPentomino` sets alive, relative to the anchor. -/
def rPentominoOffsets : List (Int × Int) := [(1, 0), (2, 0), (0, 1), (1, 1), (1, 2)]

/-- The offsets the twelve literal `setCell` calls of `initPentadecathlon` set
alive, relative to the anchor. -/
def pentadecathlonOffsets : List (Int × Int) :=
  [(0, 0), (0, 1), (-1, 2), (1, 2), (0, 3), (0, 4), (0, 5), (0, 6), (-1, 7), (1, 7), (0, 8),
    (0, 9)]

/-- The cells at the given offsets from the anchor `(sx, sy)`. -/
def placed (offs : List (Int × Int)) (sx sy : Int) : List (Int × Int) :=
  offs.map (fun d => (sx + d.1, sy + d.2))

/-- All cells of the grid in raster order. -/
def allCells : List (Int × Int) :=
  (List.product (List.range GRID_HEIGHT.toNat) (List.range GRID_WIDTH.toNat)).map
    (fun p => ((p.2 : Int), (p.1 : Int)))

/-- The number of cells of the grid that `getCell` reports alive. -/
def aliveCount (s : State) : Nat :=
  (allCells.filter (fun p => getCell s p.1 p.2)).length

/-- What a pattern initialiser establishes: generation 0, the alive cells are
exactly the in-range cells at the offsets from the anchor, and when every offset
lands in range there are as many alive cells as offsets. -/
def PlacesExactly (t : State) (offs : List (Int × Int)) (sx sy : Int) : Prop :=
  t.generation = 0 ∧
    (∀ x y : Int, getCell t x y = true ↔ InRange x y ∧ (x - sx, y - sy) ∈ offs) ∧
    ((∀ d ∈ offs, InRange (sx + d.1) (sy + d.2)) → aliveCount t = offs.length)

/-- The public operations that change the engine. -/
inductive Op where
  | clear
  | setCell (x y : Int) (alive : Bool)
  | setBoundaryCondition (bc : BoundaryCondition)
  | setRule (rule : Rule)
  | update
  | initGlider (startX startY : Int)
  | initBlock (startX startY : Int)
  | initPentadecathlon (startX startY : Int)
  | initRPentomino (startX startY : Int)

/-- One call of an operation on the engine. -/
def applyOp (s : State) : Op → State
  | Op.clear => clear s
  | Op.setCell x y alive => setCell s x y alive
  | Op.setBoundaryCondition bc => setBoundaryCondition s bc
  | Op.setRule rule => setRule s rule
  | Op.update => update s
  | Op.initGlider startX startY => initGlider s startX startY
  | Op.initBlock startX startY => initBlock s startX startY
  | Op.initPentadecathlon startX startY => initPentadecathlon s startX startY
  | Op.initRPentomino startX startY => initRPentomino s startX startY

/-- A sequence of calls, first call first. -/
def run (ops : List Op) (s : State) : State :=
  ops.foldl applyOp s

/-- In-place variant of one cell of the pass: the new value of cell `(x, y)`,
computed from the grid as it is now, is written straight into the current grid. -/
def inPlaceStep (st : State) (x y : Int) : State :=
  let neighbors := countNeighbors st x y
  let alive : Bool := readCell st.grid x y = some true
  if st.currentRule = Rule.CONWAY then
    { st with grid := writeCell st.grid x y (applyConwayRule alive neighbors) }
  else
    { st with grid := writeCell st.grid x y (applyCustomRule alive neighbors) }

/-- The raster-order pass of the in-place variant: every result is written
directly into the current grid, so later cells read neighbours that were already
updated. -/
def inPlacePass (s : State) : State :=
  forRange GRID_HEIGHT.toNat (fun y st =>
    forRange GRID_WIDTH.toNat (fun x st => inPlaceStep st x y) st) s

/-- The increment `generation++`. -/
def bumpGeneration (t : State) : State :=
  { t with generation := t.generation + 1 }

/-- In-place variant of `update`, as the specification describes it: the same
raster-order pass writing into the current grid, no buffer swap, then the
generation is incremented. -/
def updateInPlace (s : State) : State :=
  bumpGeneration (inPlacePass s)

/-- A top-row blinker under the dead-border boundary and the Conway rule: the
cells `(0, 0)`, `(1, 0)`, `(2, 0)` alive on the freshly constructed engine. -/
def inPlaceExample : State :=
  setCells (setBoundaryCondition new BoundaryCondition.REFLECTIVE) [(0, 0), (1, 0), (2, 0)]

/-- The neighbour count of cell `(x, y)` on the grid of `s` under the boundary
condition `bc`: wrapped cells for `PERIODIC`, `getCell` (dead outside) for
`REFLECTIVE`. -/
def neighborCountUnder (bc : BoundaryCondition) (s : State) (x y : Int) : Int :=
  match bc with
  | BoundaryCondition.PERIODIC =>
    ((mooreOffsets.filter (fun d =>
      decide (readCell s.grid ((x + d.1 + GRID_WIDTH).tmod GRID_WIDTH)
        ((y + d.2 + GRID_HEIGHT).tmod GRID_HEIGHT) = some true))).length : Int)
  | BoundaryCondition.REFLECTIVE =>
    ((mooreOffsets.filter (fun d => getCell s (x + d.1) (y + d.2))).length : Int)

/-- The rule function selected by a `Rule` value. -/
def applyRule (rule : Rule) (alive : Bool) (neighbors : Int) : Bool :=
  match rule with
  | Rule.CONWAY => applyConwayRule alive neighbors
  | Rule.CUSTOM => applyCustomRule alive neighbors

/-- A state with a stale write buffer: after a block was stepped once and the
grid cleared, `nextGrid` still holds the block. -/
def staleExample : State :=
  clear (update (initBlock new 100 100))

/-! Buffer reads and writes, and the raster pass. -/

theorem forRange_succ {σ : Type} (n : Nat) (body : Int → σ → σ) (init : σ) :
    forRange (n + 1) body init = body (n : Int) (forRange n body init) := by
  simp [forRange, List.range_succ, List.foldl_append]

theorem forRange_zero {σ : Type} (body : Int → σ → σ) (init : σ) :
    forRange 0 body init = init := by
  simp [forRange]

theorem readCell_writeCell (g : Grid) (x y : Int) (v : Bool) (x' y' : Int) :
    readCell (writeCell g x y v) x' y' =
      if x' = x ∧ y' = y then (readCell g x y).map (fun _ => v) else readCell g x' y' := by
  unfold writeCell readCell
  by_cases hxy : 0 ≤ x ∧ 0 ≤ y
  · by_cases hxy' : 0 ≤ x' ∧ 0 ≤ y'
    · simp only [hxy, hxy', and_self, if_true]
      cases hrow : g[y.toNat]? with
      | none =>
        by_cases h : x' = x ∧ y' = y
        · obtain ⟨rfl, rfl⟩ := h
          simp [hrow]
        · simp [h]
      | some row =>
        simp only [List.getElem?_set]
        by_cases hy : y' = y
        · subst hy
          have hlt : y'.toNat < g.length := by
            rcases List.getElem?_eq_some_iff.mp hrow with ⟨h, _⟩
            exact h
          simp only [hlt, if_true, Option.some_bind, and_true, List.getElem?_set]
          by_cases hx : x' = x
          · subst hx
            simp only [if_true]
            by_cases hlx : x'.toNat < row.length
            · simp [hlx]
            · simp [hlx, List.getElem?_eq_none (Nat.le_of_not_lt hlx)]
          · have : ¬ x.toNat = x'.toNat := by omega
            simp [hx, this, hrow]
        · have : ¬ y.toNat = y'.toNat := by omega
          simp [hy, this]
    · have : ¬ (x' = x ∧ y' = y) := by
        rintro ⟨rfl, rfl⟩; exact hxy' hxy
      simp [hxy', this]
  · by_cases h : x' = x ∧ y' = y
    · obtain ⟨rfl, rfl⟩ := h
      simp [hxy]
    · simp [hxy, h]

theorem shape_writeCell (g : Grid) (x y : Int) (v : Bool) :
    (writeCell g x y v).map List.length = g.map List.length := by
  unfold writeCell
  split
  · split
    · rename_i row hrow
      apply List.ext_getElem?
      intro i
      simp only [List.getElem?_map, List.getElem?_set]
      by_cases h : y.toNat = i
      · subst h
        have hlt : y.toNat < g.length := by
          rcases List.getElem?_eq_some_iff.mp hrow with ⟨h, _⟩
          exact h
        simp [hlt, hrow]
      · simp [h]
    · rfl
  · rfl

theorem forRange_induction {σ : Type} (P : σ → Prop) (n : Nat) (body : Int → σ → σ)
    (init : σ) (h0 : P init) (hstep : ∀ i a, P a → P (body i a)) :
    P (forRange n body init) := by
  induction n with
  | zero => simpa [forRange_zero] using h0
  | succ k ih => rw [forRange_succ]; exact hstep _ _ ih

theorem readCell_rowPass (f : Int → Int → Bool) (y : Int) (n : Nat) (g : Grid) (x' y' : Int) :
    readCell (forRange n (fun x g => writeCell g x y (f x y)) g) x' y' =
      if 0 ≤ x' ∧ x' < (n : Int) ∧ y' = y then (readCell g x' y').map (fun _ => f x' y')
      else readCell g x' y' := by
  induction n generalizing x' y' with
  | zero =>
    rw [forRange_zero, if_neg (by omega)]
  | succ k ih =>
    rw [forRange_succ, readCell_writeCell, ih, ih]
    split_ifs with h1 h2 h3 h4 h5 h6 <;>
      first
        | rfl
        | (exfalso; omega)
        | (obtain ⟨rfl, rfl⟩ := h1; cases readCell g (k : Int) y' <;> rfl)

theorem readCell_rasterRows (f : Int → Int → Bool) (m : Nat) (g : Grid) (x' y' : Int) :
    readCell (forRange m (fun y g =>
      forRange GRID_WIDTH.toNat (fun x g => writeCell g x y (f x y)) g) g) x' y' =
      if 0 ≤ x' ∧ x' < GRID_WIDTH ∧ 0 ≤ y' ∧ y' < (m : Int) then
        (readCell g x' y').map (fun _ => f x' y')
      else readCell g x' y' := by
  have hW : ((GRID_WIDTH.toNat : Nat) : Int) = GRID_WIDTH := by decide
  induction m generalizing x' y' with
  | zero =>
    rw [forRange_zero, if_neg (by omega)]
  | succ k ih =>
    rw [forRange_succ, readCell_rowPass, ih, hW]
    split_ifs with h1 h2 h3 h4 h5 h6 <;>
      first
        | rfl
        | (exfalso; omega)

theorem readCell_rasterPass (f : Int → Int → Bool) (g : Grid) (x y : Int) :
    readCell (rasterPass f g) x y =
      if InRange x y then (readCell g x y).map (fun _ => f x y) else readCell g x y := by
  unfold rasterPass InRange
  rw [readCell_rasterRows]
  have hH : ((GRID_HEIGHT.toNat : Nat) : Int) = GRID_HEIGHT := by decide
  rw [hH]

theorem shape_rasterPass (f : Int → Int → Bool) (g : Grid) :
    (rasterPass f g).map List.length = g.map List.length := by
  unfold rasterPass
  exact forRange_induction (fun a : Grid => a.map List.length = g.map List.length) _ _ _ rfl
    (fun y a ha =>
      forRange_induction (fun b : Grid => b.map List.length = g.map List.length) _ _ _ ha
        (fun x b hb => (shape_writeCell b x y (f x y)).trans hb))

theorem wellFormed_length {g : Grid} (hg : WellFormed g) : g.length = 200 := by
  have h := congrArg List.length hg
  rw [List.length_map, List.length_replicate] at h
  rw [h]; decide

theorem wellFormed_row {g : Grid} (hg : WellFormed g) (i : Nat) (hi : i < 200) :
    ∃ row, g[i]? = some row ∧ row.length = 200 := by
  have hlen := wellFormed_length hg
  have hi' : i < g.length := by omega
  refine ⟨g[i], List.getElem?_eq_getElem hi', ?_⟩
  have h := congrArg (fun l => l[i]?) hg
  simp only [List.getElem?_map, List.getElem?_replicate, List.getElem?_eq_getElem hi'] at h
  have h200 : i < GRID_HEIGHT.toNat := by
    have : GRID_HEIGHT.toNat = 200 := by decide
    omega
  simpa [h200, GRID_WIDTH] using h

theorem readCell_of_wellFormed {g : Grid} (hg : WellFormed g) {x y : Int} (h : InRange x y) :
    ∃ b, readCell g x y = some b := by
  obtain ⟨hx0, hx1, hy0, hy1⟩ := h
  simp only [GRID_WIDTH, GRID_HEIGHT] at hx1 hy1
  obtain ⟨row, hrow, hlen⟩ := wellFormed_row hg y.toNat (by omega)
  have hx : x.toNat < row.length := by omega
  refine ⟨row[x.toNat], ?_⟩
  unfold readCell
  rw [if_pos ⟨hx0, hy0⟩, hrow]
  simp [List.getElem?_eq_getElem hx]

theorem readCell_outside {g : Grid} (hg : WellFormed g) {x y : Int} (h : ¬ InRange x y) :
    readCell g x y = none := by
  unfold readCell
  split
  · rename_i h0
    by_cases hy : y.toNat < 200
    · obtain ⟨row, hrow, hlen⟩ := wellFormed_row hg y.toNat hy
      rw [hrow]
      simp only [Option.some_bind]
      apply List.getElem?_eq_none
      unfold InRange GRID_WIDTH GRID_HEIGHT at h
      omega
    · have hlen := wellFormed_length hg
      rw [List.getElem?_eq_none (by omega)]
      rfl
  · rfl

theorem grid_ext {g1 g2 : Grid} (hshape : g1.map List.length = g2.map List.length)
    (hcells : ∀ x y : Int, readCell g1 x y = readCell g2 x y) : g1 = g2 := by
  have hlen : g1.length = g2.length := by
    simpa using congrArg List.length hshape
  apply List.ext_getElem hlen
  intro i h1 h2
  have hrow : (g1[i]).length = (g2[i]).length := by
    have h := congrArg (fun l => l[i]?) hshape
    simpa [List.getElem?_map, List.getElem?_eq_getElem h1, List.getElem?_eq_getElem h2] using h
  apply List.ext_getElem hrow
  intro j hj1 hj2
  have h := hcells (j : Int) (i : Int)
  unfold readCell at h
  simp only [Int.toNat_ofNat, Int.ofNat_zero_le, and_self, if_true,
    List.getElem?_eq_getElem h1, List.getElem?_eq_getElem h2, Option.some_bind,
    List.getElem?_eq_getElem hj1, List.getElem?_eq_getElem hj2] at h
  exact Option.some.inj h

theorem wellFormed_new_grid : WellFormed new.grid := by
  unfold WellFormed new
  simp only [List.map_replicate, List.length_replicate]

theorem wellFormed_new_nextGrid : WellFormed new.nextGrid := by
  unfold WellFormed new
  simp only [List.map_replicate, List.length_replicate]

theorem clear_grid (s : State) : (clear s).grid = rasterPass (fun _ _ => false) s.grid := by
  unfold clear rasterPass
  simp only

theorem update_grid (s : State) : (update s).grid = rasterPass (nextCell s) s.nextGrid := by
  unfold update rasterPass nextCell
  simp only
  congr 1
  funext y ng
  congr 1
  funext x ng
  split <;> rfl

theorem mem_mooreOffsets (dx dy : Int) :
    (dx, dy) ∈ mooreOffsets ↔
      (dx = -1 ∨ dx = 0 ∨ dx = 1) ∧ (dy = -1 ∨ dy = 0 ∨ dy = 1) ∧ ¬ (dx = 0 ∧ dy = 0) := by
  simp only [mooreOffsets, List.mem_cons, Prod.mk.injEq, List.mem_singleton, List.not_mem_nil,
    or_false]
  omega

theorem foldl_offsets (k : Int → Int → Int → Int) (w : Int → Int → Int)
    (h : ∀ c dx dy, k c dx dy = c + w dx dy) :
    [-1, 0, 1].foldl (fun c dy => [-1, 0, 1].foldl (fun c dx => k c dx dy) c) 0 =
      w (-1) (-1) + w 0 (-1) + w 1 (-1) + w (-1) 0 + w 0 0 + w 1 0 +
        w (-1) 1 + w 0 1 + w 1 1 := by
  simp only [List.foldl, h]
  ring

theorem countNeighbors_eq_sum (s : State) (x y : Int) :
    countNeighbors s x y =
      (mooreOffsets.map (fun d => contribution s x y d.1 d.2)).sum := by
  have body : ∀ (count dx dy : Int),
      (if dx = 0 ∧ dy = 0 then count
        else
          let nx := x + dx
          let ny := y + dy
          match s.boundaryCondition with
          | BoundaryCondition.PERIODIC =>
            let nx := (nx + GRID_WIDTH).tmod GRID_WIDTH
            let ny := (ny + GRID_HEIGHT).tmod GRID_HEIGHT
            if readCell s.grid nx ny = some true then count + 1 else count
          | BoundaryCondition.REFLECTIVE =>
            if 0 ≤ nx ∧ nx < GRID_WIDTH ∧ 0 ≤ ny ∧ ny < GRID_HEIGHT then
              if readCell s.grid nx ny = some true then count + 1 else count
            else count) =
      count + (fun dx dy => if dx = 0 ∧ dy = 0 then 0 else contribution s x y dx dy) dx dy := by
    intro count dx dy
    unfold contribution
    cases s.boundaryCondition <;> simp only <;> split_ifs <;> simp
  unfold countNeighbors
  refine (foldl_offsets _ _ body).trans ?_
  have e1 : ((-1 : Int) = 0) = False := by decide
  have e2 : ((1 : Int) = 0) = False := by decide
  simp only [mooreOffsets, List.map, List.sum_cons, List.sum_nil, e1, e2, false_and, and_false,
    and_self, if_true, if_false]
  ring

theorem length_filter_eq_sum {α : Type} (p : α → Bool) (l : List α) :
    ((l.filter p).length : Int) = (l.map (fun a => if p a then (1 : Int) else 0)).sum := by
  induction l with
  | nil => rfl
  | cons a t ih =>
    rw [List.filter_cons, List.map_cons, List.sum_cons, ← ih]
    split <;> simp
    omega

theorem getCell_of_inRange (s : State) {x y : Int} (h : InRange x y) :
    getCell s x y = decide (readCell s.grid x y = some true) := by
  unfold getCell
  exact if_pos h

theorem getCell_of_not_inRange (s : State) {x y : Int} (h : ¬ InRange x y) :
    getCell s x y = false := by
  unfold getCell
  exact if_neg h

theorem readCell_eq_getCell (s : State) (hg : WellFormed s.grid) {x y : Int} (h : InRange x y) :
    readCell s.grid x y = some (getCell s x y) := by
  obtain ⟨b, hb⟩ := readCell_of_wellFormed hg h
  rw [getCell_of_inRange s h, hb]
  cases b <;> simp

theorem wellFormed_writeCell {g : Grid} (hg : WellFormed g) (x y : Int) (v : Bool) :
    WellFormed (writeCell g x y v) := by
  unfold WellFormed at *
  rw [shape_writeCell, hg]

theorem wellFormed_rasterPass {g : Grid} (hg : WellFormed g) (f : Int → Int → Bool) :
    WellFormed (rasterPass f g) := by
  unfold WellFormed at *
  rw [shape_rasterPass, hg]

theorem wellFormed_clear {s : State} (hg : WellFormed s.grid) : WellFormed (clear s).grid := by
  rw [clear_grid]
  exact wellFormed_rasterPass hg _

theorem wellFormed_setCell {s : State} (hg : WellFormed s.grid) (x y : Int) (v : Bool) :
    WellFormed (setCell s x y v).grid := by
  unfold setCell
  split
  · exact wellFormed_writeCell hg x y v
  · exact hg

theorem wellFormed_update_grid {s : State} (hn : WellFormed s.nextGrid) :
    WellFormed (update s).grid := by
  rw [update_grid]
  exact wellFormed_rasterPass hn _

theorem update_nextGrid (s : State) : (update s).nextGrid = s.grid := by
  unfold update
  rfl

theorem update_currentRule (s : State) : (update s).currentRule = s.currentRule := by
  unfold update
  rfl

theorem update_boundaryCondition (s : State) :
    (update s).boundaryCondition = s.boundaryCondition := by
  unfold update
  rfl

theorem update_generation (s : State) : (update s).generation = s.generation + 1 := by
  unfold update
  rfl

theorem getCell_clear (s : State) (x y : Int) : getCell (clear s) x y = false := by
  by_cases h : InRange x y
  · rw [getCell_of_inRange _ h, clear_grid, readCell_rasterPass, if_pos h]
    cases readCell s.grid x y <;> simp
  · exact getCell_of_not_inRange _ h

theorem getCell_setCell (s : State) (hg : WellFormed s.grid) (x y : Int) (v : Bool)
    (h : InRange x y) (x' y' : Int) :
    getCell (setCell s x y v) x' y' = if x' = x ∧ y' = y then v else getCell s x' y' := by
  have hs : (setCell s x y v).grid = writeCell s.grid x y v := by
    have e : setCell s x y v = { s with grid := writeCell s.grid x y v } := if_pos h
    rw [e]
  by_cases h' : InRange x' y'
  · rw [getCell_of_inRange _ h', getCell_of_inRange _ h', hs, readCell_writeCell]
    obtain ⟨b, hb⟩ := readCell_of_wellFormed hg h
    split
    · rw [hb]; cases v <;> simp
    · rfl
  · rw [getCell_of_not_inRange _ h', getCell_of_not_inRange _ h']
    have : ¬ (x' = x ∧ y' = y) := by
      rintro ⟨rfl, rfl⟩; exact h' h
    rw [if_neg this]

theorem setCell_currentRule (s : State) (x y : Int) (v : Bool) :
    (setCell s x y v).currentRule = s.currentRule := by
  unfold setCell; split <;> rfl

theorem setCell_boundaryCondition (s : State) (x y : Int) (v : Bool) :
    (setCell s x y v).boundaryCondition = s.boundaryCondition := by
  unfold setCell; split <;> rfl

theorem setCell_nextGrid (s : State) (x y : Int) (v : Bool) :
    (setCell s x y v).nextGrid = s.nextGrid := by
  unfold setCell; split <;> rfl

theorem setCell_generation (s : State) (x y : Int) (v : Bool) :
    (setCell s x y v).generation = s.generation := by
  unfold setCell; split <;> rfl

theorem clear_currentRule (s : State) : (clear s).currentRule = s.currentRule := by
  unfold clear; rfl

theorem clear_boundaryCondition (s : State) :
    (clear s).boundaryCondition = s.boundaryCondition := by
  unfold clear; rfl

theorem clear_nextGrid (s : State) : (clear s).nextGrid = s.nextGrid := by
  unfold clear; rfl

/-- The cell `update` produces, read through `getCell`. -/
theorem getCell_update (s : State) (hn : WellFormed s.nextGrid)
    {x y : Int} (h : InRange x y) :
    getCell (update s) x y =
      if s.currentRule = Rule.CONWAY then applyConwayRule (getCell s x y) (countNeighbors s x y)
      else applyCustomRule (getCell s x y) (countNeighbors s x y) := by
  obtain ⟨old, ho⟩ := readCell_of_wellFormed hn h
  rw [getCell_of_inRange _ h, update_grid, readCell_rasterPass, if_pos h, ho]
  unfold nextCell
  rw [← getCell_of_inRange s h]
  simp

theorem grid_eq_of_getCell {s t : State} (hs : WellFormed s.grid) (ht : WellFormed t.grid)
    (h : ∀ x y : Int, InRange x y → getCell s x y = getCell t x y) : s.grid = t.grid := by
  apply grid_ext
  · unfold WellFormed at hs ht
    rw [hs, ht]
  · intro x y
    by_cases hxy : InRange x y
    · rw [readCell_eq_getCell s hs hxy, readCell_eq_getCell t ht hxy, h x y hxy]
    · rw [readCell_outside hs hxy, readCell_outside ht hxy]

theorem tmod_wrap (a : Int) (h0 : -1 ≤ a) (h1 : a ≤ 200) :
    (a + 200).tmod 200 = (a % 200 + 200) % 200 ∧
      (a + 200).tmod 200 = ((a.tmod 200) + 200).tmod 200 ∧
      0 ≤ (a + 200).tmod 200 ∧ (a + 200).tmod 200 < 200 := by
  have e1 : (a + 200).tmod 200 = (a + 200) % 200 := Int.tmod_eq_emod (by omega) (by omega)
  have e2 : (a.tmod 200 + 200).tmod 200 = (a + 200) % 200 := by
    by_cases ha : 0 ≤ a
    · have e3 : a.tmod 200 = a % 200 := Int.tmod_eq_emod ha (by omega)
      rw [e3, Int.tmod_eq_emod (by omega) (by omega)]
      omega
    · have ha1 : a = -1 := by omega
      subst ha1
      decide
  rw [e2, e1]
  omega

theorem countNeighbors_periodic (s : State)
    (hbc : s.boundaryCondition = BoundaryCondition.PERIODIC) (x y : Int) :
    countNeighbors s x y =
      ((mooreOffsets.filter (fun d =>
        decide (readCell s.grid ((x + d.1 + GRID_WIDTH).tmod GRID_WIDTH)
          ((y + d.2 + GRID_HEIGHT).tmod GRID_HEIGHT) = some true))).length : Int) := by
  rw [countNeighbors_eq_sum, length_filter_eq_sum]
  congr 1
  apply List.map_congr_left
  intro d _
  unfold contribution
  rw [hbc]
  simp

theorem countNeighbors_reflective (s : State)
    (hbc : s.boundaryCondition = BoundaryCondition.REFLECTIVE) (x y : Int) :
    countNeighbors s x y =
      ((mooreOffsets.filter (fun d => getCell s (x + d.1) (y + d.2))).length : Int) := by
  rw [countNeighbors_eq_sum, length_filter_eq_sum]
  congr 1
  apply List.map_congr_left
  intro d _
  unfold contribution getCell
  rw [hbc]
  simp only
  split_ifs <;> simp_all

theorem pat_eq_false_of_inBox {kx ky : Nat} {L : List (Nat × Nat)} (h : inBox kx ky L = true)
    {a b : Nat} (hab : a = 0 ∨ kx < a ∨ b = 0 ∨ ky < b) : pat L a b = false := by
  unfold pat
  rw [Bool.eq_false_iff]
  intro hc
  have hc : (a, b) ∈ L := by simpa using hc
  unfold inBox at h
  rw [List.all_eq_true] at h
  have := h (a, b) hc
  simp only [decide_eq_true_eq] at this
  omega

theorem torusNext_of_windowStep {kx ky : Nat} {L L2 : List (Nat × Nat)}
    (h : windowStep kx ky L L2 = true) (a b : Nat) (ha : a < 200) (hb : b < 200) :
    torusNext L a b = pat L2 a b := by
  unfold windowStep at h
  simp only [Bool.and_eq_true] at h
  obtain ⟨⟨hL, hL2⟩, hw⟩ := h
  by_cases hin : a < kx + 2 ∧ b < ky + 2
  · rw [List.all_eq_true] at hw
    have h1 := hw a (List.mem_range.mpr hin.1)
    rw [List.all_eq_true] at h1
    have h2 := h1 b (List.mem_range.mpr hin.2)
    exact eq_of_beq h2
  · have hout : kx + 2 ≤ a ∨ ky + 2 ≤ b := by omega
    rw [pat_eq_false_of_inBox hL2 (by omega)]
    unfold torusNext torusCount
    rw [pat_eq_false_of_inBox hL (by omega)]
    have hnil : torusOffsets.filter
        (fun e => pat L ((a + e.1) % 200) ((b + e.2) % 200)) = [] := by
      rw [List.filter_eq_nil_iff]
      intro e he
      have he' : (e.1 = 199 ∨ e.1 = 0 ∨ e.1 = 1) ∧ (e.2 = 199 ∨ e.2 = 0 ∨ e.2 = 1) := by
        unfold torusOffsets at he
        simp only [List.mem_cons, List.mem_singleton, List.not_mem_nil, or_false] at he
        rcases he with h | h | h | h | h | h | h | h <;> subst h <;> simp
      rw [pat_eq_false_of_inBox hL (by omega)]
      simp
    rw [hnil]
    rfl

theorem torusOffsets_eq :
    torusOffsets =
      mooreOffsets.map (fun d => (((d.1 + 200) % 200).toNat, ((d.2 + 200) % 200).toNat)) := by
  decide

theorem shows_update {s : State} (hn : WellFormed s.nextGrid)
    (hbc : s.boundaryCondition = BoundaryCondition.PERIODIC)
    (hrule : s.currentRule = Rule.CONWAY) {ox oy : Int} {L L2 : List (Nat × Nat)}
    (hs : Shows s ox oy L)
    (hstep : ∀ a b : Nat, a < 200 → b < 200 → torusNext L a b = pat L2 a b) :
    Shows (update s) ox oy L2 := by
  intro x y h
  rw [getCell_update s hn h, if_pos hrule, hs x y h,
    ← hstep _ _ (by omega) (by omega)]
  unfold torusNext
  congr 1
  rw [countNeighbors_periodic s hbc]
  unfold torusCount
  rw [torusOffsets_eq, List.filter_map, List.length_map]
  congr 2
  apply List.filter_congr
  intro d hd
  obtain ⟨dx, dy⟩ := d
  rw [mem_mooreOffsets] at hd
  obtain ⟨hx0, hx1, hy0, hy1⟩ := h
  unfold GRID_WIDTH at hx1
  unfold GRID_HEIGHT at hy1
  have hx := tmod_wrap (x + dx) (by omega) (by omega)
  have hy := tmod_wrap (y + dy) (by omega) (by omega)
  have hin : InRange ((x + dx + GRID_WIDTH).tmod GRID_WIDTH)
      ((y + dy + GRID_HEIGHT).tmod GRID_HEIGHT) :=
    ⟨hx.2.2.1, hx.2.2.2, hy.2.2.1, hy.2.2.2⟩
  simp only [Function.comp]
  rw [← getCell_of_inRange s hin, hs _ _ hin]
  have ex : (((x + dx + GRID_WIDTH).tmod GRID_WIDTH - ox) % 200).toNat =
      (((x - ox) % 200).toNat + ((dx + 200) % 200).toNat) % 200 := by
    have := hx.1
    unfold GRID_WIDTH
    omega
  have ey : (((y + dy + GRID_HEIGHT).tmod GRID_HEIGHT - oy) % 200).toNat =
      (((y - oy) % 200).toNat + ((dy + 200) % 200).toNat) % 200 := by
    have := hy.1
    unfold GRID_HEIGHT
    omega
  rw [ex, ey]

theorem getCell_setCell_any (s : State) (hg : WellFormed s.grid) (x y : Int) (v : Bool)
    (x' y' : Int) :
    getCell (setCell s x y v) x' y' =
      if x' = x ∧ y' = y ∧ InRange x y then v else getCell s x' y' := by
  by_cases h : InRange x y
  · rw [getCell_setCell s hg x y v h]
    simp only [h, and_true]
  · have e : setCell s x y v = s := if_neg h
    rw [e, if_neg (by tauto)]

theorem wellFormed_setCells {s : State} (hg : WellFormed s.grid) (cells : List (Int × Int)) :
    WellFormed (setCells s cells).grid := by
  induction cells generalizing s with
  | nil => exact hg
  | cons p t ih => exact ih (wellFormed_setCell hg p.1 p.2 true)

theorem getCell_setCells (s : State) (hg : WellFormed s.grid) (cells : List (Int × Int))
    (x y : Int) :
    getCell (setCells s cells) x y =
      (decide ((x, y) ∈ cells ∧ InRange x y) || getCell s x y) := by
  induction cells generalizing s with
  | nil => simp [setCells]
  | cons p t ih =>
    have e : setCells s (p :: t) = setCells (setCell s p.1 p.2 true) t := rfl
    rw [e, ih _ (wellFormed_setCell hg p.1 p.2 true), getCell_setCell_any s hg]
    obtain ⟨px, py⟩ := p
    by_cases hc : x = px ∧ y = py ∧ InRange px py
    · obtain ⟨rfl, rfl, hin⟩ := hc
      simp [hin]
    · rw [if_neg hc]
      by_cases hm : (x, y) ∈ t ∧ InRange x y
      · have hm2 : (x, y) ∈ (px, py) :: t ∧ InRange x y := ⟨List.mem_cons_of_mem _ hm.1, hm.2⟩
        rw [decide_eq_true hm, decide_eq_true hm2]
      · have : ¬ ((x, y) ∈ (px, py) :: t ∧ InRange x y) := by
          rintro ⟨hmem, hin⟩
          rcases List.mem_cons.mp hmem with h1 | h1
          · rw [Prod.mk.injEq] at h1
            exact hc ⟨h1.1, h1.2, h1.1 ▸ h1.2 ▸ hin⟩
          · exact hm ⟨h1, hin⟩
        rw [decide_eq_false hm, decide_eq_false this]

theorem setCells_nextGrid (s : State) (cells : List (Int × Int)) :
    (setCells s cells).nextGrid = s.nextGrid := by
  induction cells generalizing s with
  | nil => rfl
  | cons p t ih =>
    have e : setCells s (p :: t) = setCells (setCell s p.1 p.2 true) t := rfl
    rw [e, ih, setCell_nextGrid]

theorem setCells_currentRule (s : State) (cells : List (Int × Int)) :
    (setCells s cells).currentRule = s.currentRule := by
  induction cells generalizing s with
  | nil => rfl
  | cons p t ih =>
    have e : setCells s (p :: t) = setCells (setCell s p.1 p.2 true) t := rfl
    rw [e, ih, setCell_currentRule]

theorem setCells_boundaryCondition (s : State) (cells : List (Int × Int)) :
    (setCells s cells).boundaryCondition = s.boundaryCondition := by
  induction cells generalizing s with
  | nil => rfl
  | cons p t ih =>
    have e : setCells s (p :: t) = setCells (setCell s p.1 p.2 true) t := rfl
    rw [e, ih, setCell_boundaryCondition]

theorem initGlider_eq (s : State) (sx sy : Int) :
    initGlider s sx sy =
      setCells (clear s)
        [(sx + 1, sy), (sx + 2, sy + 1), (sx, sy + 2), (sx + 1, sy + 2), (sx + 2, sy + 2)] := by
  unfold initGlider setCells
  rfl

theorem initBlock_eq (s : State) (sx sy : Int) :
    initBlock s sx sy =
      setCells (clear s) [(sx, sy), (sx + 1, sy), (sx, sy + 1), (sx + 1, sy + 1)] := by
  unfold initBlock setCells
  rfl

theorem shows_setCells (s : State) (hg : WellFormed s.grid) (cells : List (Int × Int))
    (ox oy : Int) (hin : ∀ p ∈ cells, InRange p.1 p.2) :
    Shows (setCells (clear s) cells) ox oy
      (cells.map (fun p => (((p.1 - ox) % 200).toNat, ((p.2 - oy) % 200).toNat))) := by
  intro x y h
  rw [getCell_setCells _ (wellFormed_clear hg), getCell_clear, Bool.or_false, Bool.eq_iff_iff]
  unfold pat
  simp only [decide_eq_true_eq, List.contains_iff_exists_mem_beq, beq_iff_eq, List.mem_map,
    Prod.mk.injEq]
  constructor
  · rintro ⟨hm, _⟩
    exact ⟨_, ⟨(x, y), hm, rfl⟩, rfl⟩
  · rintro ⟨q, ⟨p, hp, h1⟩, h3⟩
    have hpin := hin p hp
    obtain ⟨p1, p2⟩ := p
    obtain ⟨a0, a1, a2, a3⟩ := hpin
    obtain ⟨b0, b1, b2, b3⟩ := h
    unfold GRID_WIDTH at a1 b1
    unfold GRID_HEIGHT at a3 b3
    rw [← h3, Prod.mk.injEq] at h1
    obtain ⟨h1, h2⟩ := h1
    simp only at h1 h2 a0 a1 a2 a3
    have e1 : p1 = x := by omega
    have e2 : p2 = y := by omega
    subst e1 e2
    exact ⟨hp, b0, b1, b2, b3⟩

theorem planePat_eq_false_of_planeBox {k : Nat} {L : List (Int × Int)}
    (h : planeBox k L = true) {a b : Int}
    (hab : a < 1 ∨ (k : Int) < a ∨ b < 1 ∨ (k : Int) < b) : planePat L a b = false := by
  unfold planePat
  rw [Bool.eq_false_iff]
  intro hc
  have hc : (a, b) ∈ L := by simpa using hc
  unfold planeBox at h
  rw [List.all_eq_true] at h
  have := h (a, b) hc
  simp only [decide_eq_true_eq] at this
  omega

theorem planeNext_of_planeWindowStep {k : Nat} {L L2 : List (Int × Int)}
    (h : planeWindowStep k L L2 = true) (a b : Int) :
    planeNext L a b = planePat L2 a b := by
  unfold planeWindowStep at h
  simp only [Bool.and_eq_true] at h
  obtain ⟨⟨hL, hL2⟩, hw⟩ := h
  by_cases hin : (0 ≤ a ∧ a < (k : Int) + 2) ∧ (0 ≤ b ∧ b < (k : Int) + 2)
  · rw [List.all_eq_true] at hw
    have h1 := hw a.toNat (List.mem_range.mpr (by omega))
    rw [List.all_eq_true] at h1
    have h2 := h1 b.toNat (List.mem_range.mpr (by omega))
    rw [Int.toNat_of_nonneg hin.1.1, Int.toNat_of_nonneg hin.2.1] at h2
    exact eq_of_beq h2
  · rw [planePat_eq_false_of_planeBox hL2 (by omega)]
    unfold planeNext planeCount
    rw [planePat_eq_false_of_planeBox hL (by omega)]
    have hnil : mooreOffsets.filter (fun d => planePat L (a + d.1) (b + d.2)) = [] := by
      rw [List.filter_eq_nil_iff]
      intro d hd
      obtain ⟨dx, dy⟩ := d
      rw [mem_mooreOffsets] at hd
      rw [planePat_eq_false_of_planeBox hL (by simp only; omega)]
      simp
    rw [hnil]
    rfl

theorem planeShows_update {s : State} (hn : WellFormed s.nextGrid)
    (hbc : s.boundaryCondition = BoundaryCondition.REFLECTIVE)
    (hrule : s.currentRule = Rule.CONWAY) {ox oy : Int} {L L2 : List (Int × Int)}
    (hs : PlaneShows s ox oy L)
    (hstep : ∀ a b : Int, planeNext L a b = planePat L2 a b)
    (hL2 : ∀ p ∈ L2, InRange (ox + p.1) (oy + p.2)) :
    PlaneShows (update s) ox oy L2 := by
  intro x y
  by_cases h : InRange x y
  · rw [getCell_update s hn h, if_pos hrule, hs x y, ← hstep]
    unfold planeNext
    congr 1
    rw [countNeighbors_reflective s hbc]
    unfold planeCount
    congr 2
    apply List.filter_congr
    intro d _
    rw [hs]
    congr 1 <;> omega
  · rw [getCell_of_not_inRange _ h]
    symm
    unfold planePat
    rw [Bool.eq_false_iff]
    intro hc
    have hc : (x - ox, y - oy) ∈ L2 := by simpa using hc
    have := hL2 _ hc
    simp only at this
    apply h
    have ex : ox + (x - ox) = x := by omega
    have ey : oy + (y - oy) = y := by omega
    rw [ex, ey] at this
    exact this

theorem planeShows_setCells (s : State) (hg : WellFormed s.grid) (cells : List (Int × Int))
    (ox oy : Int) (hin : ∀ p ∈ cells, InRange p.1 p.2) :
    PlaneShows (setCells (clear s) cells) ox oy
      (cells.map (fun p => (p.1 - ox, p.2 - oy))) := by
  intro x y
  rw [getCell_setCells _ (wellFormed_clear hg), getCell_clear, Bool.or_false, Bool.eq_iff_iff]
  unfold planePat
  simp only [decide_eq_true_eq, List.contains_iff_exists_mem_beq, beq_iff_eq, List.mem_map]
  constructor
  · rintro ⟨hm, _⟩
    exact ⟨_, ⟨(x, y), hm, rfl⟩, rfl⟩
  · rintro ⟨q, ⟨p, hp, h1⟩, h3⟩
    have hpin := hin p hp
    obtain ⟨p1, p2⟩ := p
    rw [← h3, Prod.mk.injEq] at h1
    obtain ⟨h1, h2⟩ := h1
    simp only at h1 h2 hpin
    have e1 : p1 = x := by omega
    have e2 : p2 = y := by omega
    subst e1 e2
    exact ⟨hp, hpin⟩

theorem blockTorus_step : windowStep 2 2 blockTorus blockTorus = true := by decide

theorem blockPlane_step : planeWindowStep 2 blockPlane blockPlane = true := by decide

theorem block_cells_inRange (sx sy : Int) (hx0 : 0 ≤ sx) (hx1 : sx ≤ 198) (hy0 : 0 ≤ sy)
    (hy1 : sy ≤ 198) :
    ∀ p ∈ [(sx, sy), (sx + 1, sy), (sx, sy + 1), (sx + 1, sy + 1)], InRange p.1 p.2 := by
  intro p hp
  simp only [List.mem_cons, List.mem_singleton, List.not_mem_nil, or_false] at hp
  unfold InRange GRID_WIDTH GRID_HEIGHT
  rcases hp with rfl | rfl | rfl | rfl <;> simp only <;> omega

theorem shows_initBlock (s : State) (hg : WellFormed s.grid) (sx sy : Int)
    (hx0 : 0 ≤ sx) (hx1 : sx ≤ 198) (hy0 : 0 ≤ sy) (hy1 : sy ≤ 198) :
    Shows (initBlock s sx sy) (sx - 1) (sy - 1) blockTorus := by
  have h := shows_setCells s hg _ (sx - 1) (sy - 1)
    (block_cells_inRange sx sy hx0 hx1 hy0 hy1)
  rw [initBlock_eq]
  have e : [(sx, sy), (sx + 1, sy), (sx, sy + 1), (sx + 1, sy + 1)].map
        (fun p => (((p.1 - (sx - 1)) % 200).toNat, ((p.2 - (sy - 1)) % 200).toNat)) =
      blockTorus := by
    simp only [List.map, blockTorus, List.cons.injEq, Prod.mk.injEq, and_true]
    omega
  rw [e] at h
  exact h

theorem planeShows_initBlock (s : State) (hg : WellFormed s.grid) (sx sy : Int)
    (hx0 : 0 ≤ sx) (hx1 : sx ≤ 198) (hy0 : 0 ≤ sy) (hy1 : sy ≤ 198) :
    PlaneShows (initBlock s sx sy) (sx - 1) (sy - 1) blockPlane := by
  have h := planeShows_setCells s hg _ (sx - 1) (sy - 1)
    (block_cells_inRange sx sy hx0 hx1 hy0 hy1)
  rw [initBlock_eq]
  have e : [(sx, sy), (sx + 1, sy), (sx, sy + 1), (sx + 1, sy + 1)].map
        (fun p => (p.1 - (sx - 1), p.2 - (sy - 1))) = blockPlane := by
    simp only [List.map, blockPlane, List.cons.injEq, Prod.mk.injEq, and_true]
    omega
  rw [e] at h
  exact h

theorem wellFormed_initBlock {s : State} (hg : WellFormed s.grid) (sx sy : Int) :
    WellFormed (initBlock s sx sy).grid := by
  rw [initBlock_eq]
  exact wellFormed_setCells (wellFormed_clear hg) _

theorem wellFormed_initGlider {s : State} (hg : WellFormed s.grid) (sx sy : Int) :
    WellFormed (initGlider s sx sy).grid := by
  rw [initGlider_eq]
  exact wellFormed_setCells (wellFormed_clear hg) _

theorem initBlock_nextGrid (s : State) (sx sy : Int) :
    (initBlock s sx sy).nextGrid = s.nextGrid := by
  rw [initBlock_eq, setCells_nextGrid, clear_nextGrid]

theorem initBlock_currentRule (s : State) (sx sy : Int) :
    (initBlock s sx sy).currentRule = s.currentRule := by
  rw [initBlock_eq, setCells_currentRule, clear_currentRule]

theorem initBlock_boundaryCondition (s : State) (sx sy : Int) :
    (initBlock s sx sy).boundaryCondition = s.boundaryCondition := by
  rw [initBlock_eq, setCells_boundaryCondition, clear_boundaryCondition]

theorem initGlider_nextGrid (s : State) (sx sy : Int) :
    (initGlider s sx sy).nextGrid = s.nextGrid := by
  rw [initGlider_eq, setCells_nextGrid, clear_nextGrid]

theorem running_update {s : State} {bc : BoundaryCondition} (h : Running s bc) :
    Running (update s) bc where
  grid := wellFormed_update_grid h.nextGrid
  nextGrid := by rw [update_nextGrid]; exact h.grid
  rule := by rw [update_currentRule]; exact h.rule
  boundary := by rw [update_boundaryCondition]; exact h.boundary

theorem shows_step {s : State} {ox oy : Int} {kx ky : Nat} {L L2 : List (Nat × Nat)}
    (hr : Running s BoundaryCondition.PERIODIC) (hs : Shows s ox oy L)
    (hw : windowStep kx ky L L2 = true) :
    Running (update s) BoundaryCondition.PERIODIC ∧ Shows (update s) ox oy L2 :=
  ⟨running_update hr,
    shows_update hr.nextGrid hr.boundary hr.rule hs (torusNext_of_windowStep hw)⟩

theorem grid_eq_of_shows {s t : State} {ox oy : Int} {L : List (Nat × Nat)}
    (hs : WellFormed s.grid) (ht : WellFormed t.grid) (h1 : Shows s ox oy L)
    (h2 : Shows t ox oy L) : s.grid = t.grid :=
  grid_eq_of_getCell hs ht (fun x y h => (h1 x y h).trans (h2 x y h).symm)

theorem block_periodic_iterate (s : State) (hr : Running s BoundaryCondition.PERIODIC)
    (ox oy : Int) (hs : Shows s ox oy blockTorus) (n : Nat) :
    Running (update^[n] s) BoundaryCondition.PERIODIC ∧ Shows (update^[n] s) ox oy blockTorus := by
  induction n with
  | zero => exact ⟨hr, hs⟩
  | succ k ih =>
    rw [Function.iterate_succ_apply']
    exact shows_step ih.1 ih.2 blockTorus_step

theorem block_reflective_iterate (s : State) (hr : Running s BoundaryCondition.REFLECTIVE)
    (ox oy : Int) (hs : PlaneShows s ox oy blockPlane)
    (hin : ∀ p ∈ blockPlane, InRange (ox + p.1) (oy + p.2)) (n : Nat) :
    Running (update^[n] s) BoundaryCondition.REFLECTIVE ∧
      PlaneShows (update^[n] s) ox oy blockPlane := by
  induction n with
  | zero => exact ⟨hr, hs⟩
  | succ k ih =>
    rw [Function.iterate_succ_apply']
    exact ⟨running_update ih.1,
      planeShows_update ih.1.nextGrid ih.1.boundary ih.1.rule ih.2
        (planeNext_of_planeWindowStep blockPlane_step) hin⟩

theorem getCell_setBoundaryCondition (s : State) (bc : BoundaryCondition) (x y : Int) :
    getCell (setBoundaryCondition s bc) x y = getCell s x y := by
  unfold getCell setBoundaryCondition
  rfl

theorem getCell_single (s : State) (hg : WellFormed s.grid) (x y : Int) :
    getCell (setCell (clear s) 0 0 true) x y = decide (x = 0 ∧ y = 0) := by
  rw [getCell_setCell _ (wellFormed_clear hg) 0 0 true (by decide), getCell_clear]
  by_cases h : x = 0 ∧ y = 0
  · rw [if_pos h, decide_eq_true h]
  · rw [if_neg h, decide_eq_false h]

/-! The properties of the engine. -/

/-- C1: on an engine state whose two buffers are 200 by 200, `update` gives every
in-range cell the value of the current rule applied to that cell of the pre-step
grid and to its pre-step neighbour count; the generation grows by one and the
boundary condition and rule are unchanged. -/
theorem update_spec (s : State) (hg : WellFormed s.grid) (hn : WellFormed s.nextGrid) :
    (∀ x y : Int, InRange x y →
      ∃ alive, readCell s.grid x y = some alive ∧
        readCell (update s).grid x y = some
          (match s.currentRule with
            | Rule.CONWAY => applyConwayRule alive (countNeighbors s x y)
            | Rule.CUSTOM => applyCustomRule alive (countNeighbors s x y))) ∧
    (update s).generation = s.generation + 1 ∧
    (update s).boundaryCondition = s.boundaryCondition ∧
    (update s).currentRule = s.currentRule := by
  refine ⟨?_, rfl, rfl, rfl⟩
  intro x y hxy
  obtain ⟨alive, ha⟩ := readCell_of_wellFormed hg hxy
  obtain ⟨old, ho⟩ := readCell_of_wellFormed hn hxy
  refine ⟨alive, ha, ?_⟩
  rw [update_grid, readCell_rasterPass, if_pos hxy, ho]
  unfold nextCell
  rw [ha]
  cases s.currentRule <;> cases alive <;> simp

/-- Witness for C1 at the freshly constructed engine, cell `(3, 5)`. -/
theorem update_spec_witness :
    WellFormed new.grid ∧ WellFormed new.nextGrid ∧ InRange 3 5 ∧
      (∃ alive, readCell new.grid 3 5 = some alive ∧
        readCell (update new).grid 3 5 =
          some (applyConwayRule alive (countNeighbors new 3 5))) ∧
      (update new).generation = new.generation + 1 :=
  ⟨wellFormed_new_grid, wellFormed_new_nextGrid, by decide,
    (update_spec new wellFormed_new_grid wellFormed_new_nextGrid).1 3 5 (by decide),
    (update_spec new wellFormed_new_grid wellFormed_new_nextGrid).2.1⟩

/-- C2: outside `[0, W) × [0, H)` `getCell` answers false and `setCell` leaves
the whole state as it was. -/
theorem out_of_range_ignored (s : State) (x y : Int) (h : ¬ InRange x y) :
    getCell s x y = false ∧ ∀ alive : Bool, setCell s x y alive = s := by
  refine ⟨getCell_of_not_inRange s h, ?_⟩
  intro alive
  unfold setCell
  exact if_neg h

/-- Witness for C2 just past the right edge. -/
theorem out_of_range_ignored_witness :
    ¬ InRange 200 0 ∧ getCell new 200 0 = false ∧ ∀ alive : Bool, setCell new 200 0 alive = new :=
  ⟨by decide, out_of_range_ignored new 200 0 (by decide)⟩

/-- C3: after `clear` every `getCell` answers false, the generation is 0 and the
boundary condition and rule are untouched. -/
theorem clear_spec (s : State) :
    (∀ x y : Int, getCell (clear s) x y = false) ∧ getGeneration (clear s) = 0 ∧
      (clear s).boundaryCondition = s.boundaryCondition ∧
      (clear s).currentRule = s.currentRule := by
  refine ⟨?_, by unfold getGeneration clear; rfl, by unfold clear; rfl, by unfold clear; rfl⟩
  intro x y
  by_cases h : InRange x y
  · rw [getCell_of_inRange _ h, clear_grid, readCell_rasterPass, if_pos h]
    cases readCell s.grid x y <;> simp
  · exact getCell_of_not_inRange _ h

/-- C4: under `PERIODIC`, around an in-range cell each of the eight offsets is
resolved by the truncating index `(x + dx + W) % W`, `(y + dy + H) % H`; that
index equals the wrap formula `((x + dx) mod W + W) mod W` (read with either the
mathematical or the truncating remainder), lies inside the grid, is a valid index
of a 200 by 200 buffer, and `countNeighbors` is the number of the eight wrapped
cells that are alive. -/
theorem periodic_neighbors (s : State) (hbc : s.boundaryCondition = BoundaryCondition.PERIODIC)
    (hg : WellFormed s.grid) (x y : Int) (h : InRange x y) :
    (∀ dx dy : Int, (dx, dy) ∈ mooreOffsets →
      (x + dx + GRID_WIDTH).tmod GRID_WIDTH =
          ((x + dx) % GRID_WIDTH + GRID_WIDTH) % GRID_WIDTH ∧
        (y + dy + GRID_HEIGHT).tmod GRID_HEIGHT =
          ((y + dy) % GRID_HEIGHT + GRID_HEIGHT) % GRID_HEIGHT ∧
        (x + dx + GRID_WIDTH).tmod GRID_WIDTH =
          (((x + dx).tmod GRID_WIDTH) + GRID_WIDTH).tmod GRID_WIDTH ∧
        (y + dy + GRID_HEIGHT).tmod GRID_HEIGHT =
          (((y + dy).tmod GRID_HEIGHT) + GRID_HEIGHT).tmod GRID_HEIGHT ∧
        InRange ((x + dx + GRID_WIDTH).tmod GRID_WIDTH)
          ((y + dy + GRID_HEIGHT).tmod GRID_HEIGHT) ∧
        ∃ b, readCell s.grid ((x + dx + GRID_WIDTH).tmod GRID_WIDTH)
          ((y + dy + GRID_HEIGHT).tmod GRID_HEIGHT) = some b) ∧
    countNeighbors s x y =
      ((mooreOffsets.filter (fun d =>
        decide (readCell s.grid ((x + d.1 + GRID_WIDTH).tmod GRID_WIDTH)
          ((y + d.2 + GRID_HEIGHT).tmod GRID_HEIGHT) = some true))).length : Int) := by
  constructor
  · intro dx dy hd
    rw [mem_mooreOffsets] at hd
    obtain ⟨hx0, hx1, hy0, hy1⟩ := h
    unfold GRID_WIDTH at hx1
    unfold GRID_HEIGHT at hy1
    have hx := tmod_wrap (x + dx) (by omega) (by omega)
    have hy := tmod_wrap (y + dy) (by omega) (by omega)
    have hin : InRange ((x + dx + GRID_WIDTH).tmod GRID_WIDTH)
        ((y + dy + GRID_HEIGHT).tmod GRID_HEIGHT) :=
      ⟨hx.2.2.1, hx.2.2.2, hy.2.2.1, hy.2.2.2⟩
    exact ⟨hx.1, hy.1, hx.2.1, hy.2.1, hin, readCell_of_wellFormed hg hin⟩
  · exact countNeighbors_periodic s hbc x y

/-- Witness for C4 at the corner cell `(199, 199)` of the fresh engine and the
offset `(1, 1)`, which wraps to cell `(0, 0)`. -/
theorem periodic_neighbors_witness :
    new.boundaryCondition = BoundaryCondition.PERIODIC ∧ WellFormed new.grid ∧ InRange 199 199 ∧
      ((1 : Int), (1 : Int)) ∈ mooreOffsets ∧
      InRange ((199 + 1 + GRID_WIDTH).tmod GRID_WIDTH) ((199 + 1 + GRID_HEIGHT).tmod GRID_HEIGHT) ∧
      countNeighbors new 199 199 =
        ((mooreOffsets.filter (fun d =>
          decide (readCell new.grid ((199 + d.1 + GRID_WIDTH).tmod GRID_WIDTH)
            ((199 + d.2 + GRID_HEIGHT).tmod GRID_HEIGHT) = some true))).length : Int) :=
  ⟨rfl, wellFormed_new_grid, by decide, by decide,
    ((periodic_neighbors new rfl wellFormed_new_grid 199 199 (by decide)).1 1 1
      (by decide)).2.2.2.2.1,
    (periodic_neighbors new rfl wellFormed_new_grid 199 199 (by decide)).2⟩

/-- C5: under `REFLECTIVE`, for all integers `x`, `y`, `countNeighbors` is the
number of the eight offsets whose cell `getCell` reports alive; a neighbour
outside the grid is reported dead, so it adds nothing. -/
theorem reflective_neighbors (s : State)
    (hbc : s.boundaryCondition = BoundaryCondition.REFLECTIVE) (x y : Int) :
    countNeighbors s x y =
        ((mooreOffsets.filter (fun d => getCell s (x + d.1) (y + d.2))).length : Int) ∧
      ∀ d ∈ mooreOffsets, ¬ InRange (x + d.1) (y + d.2) →
        contribution s x y d.1 d.2 = 0 ∧ getCell s (x + d.1) (y + d.2) = false := by
  constructor
  · exact countNeighbors_reflective s hbc x y
  · intro d _ hout
    refine ⟨?_, getCell_of_not_inRange s hout⟩
    unfold contribution
    rw [hbc]
    exact if_neg hout

/-- Witness for C5 at the corner cell `(199, 199)` and the offset `(1, 1)`,
which leaves the grid. -/
theorem reflective_neighbors_witness :
    (setBoundaryCondition new BoundaryCondition.REFLECTIVE).boundaryCondition =
        BoundaryCondition.REFLECTIVE ∧
      ((1 : Int), (1 : Int)) ∈ mooreOffsets ∧ ¬ InRange (199 + 1) (199 + 1) ∧
      countNeighbors (setBoundaryCondition new BoundaryCondition.REFLECTIVE) 199 199 =
        ((mooreOffsets.filter (fun d =>
          getCell (setBoundaryCondition new BoundaryCondition.REFLECTIVE)
            (199 + d.1) (199 + d.2))).length : Int) ∧
      getCell (setBoundaryCondition new BoundaryCondition.REFLECTIVE) (199 + 1) (199 + 1) =
        false :=
  ⟨rfl, by decide, by decide,
    (reflective_neighbors (setBoundaryCondition new BoundaryCondition.REFLECTIVE) rfl
      199 199).1,
    ((reflective_neighbors (setBoundaryCondition new BoundaryCondition.REFLECTIVE) rfl
      199 199).2 (1, 1) (by decide) (by decide)).2⟩

/-- C6: on the grid whose only live cell is `(0, 0)`, built by `clear` then
`setCell(0, 0, true)`, the corner cell `(W - 1, H - 1)` has one neighbour under
`PERIODIC` and none under `REFLECTIVE`. -/
theorem corner_neighbor_count (s : State) (hg : WellFormed s.grid) :
    (∀ x y : Int, getCell (setCell (clear s) 0 0 true) x y = true ↔ x = 0 ∧ y = 0) ∧
    countNeighbors (setBoundaryCondition (setCell (clear s) 0 0 true)
      BoundaryCondition.PERIODIC) (GRID_WIDTH - 1) (GRID_HEIGHT - 1) = 1 ∧
    countNeighbors (setBoundaryCondition (setCell (clear s) 0 0 true)
      BoundaryCondition.REFLECTIVE) (GRID_WIDTH - 1) (GRID_HEIGHT - 1) = 0 := by
  refine ⟨?_, ?_, ?_⟩
  · intro x y
    rw [getCell_single s hg, decide_eq_true_eq]
  · rw [countNeighbors_periodic _ rfl]
    have e : mooreOffsets.filter (fun d =>
        decide (readCell (setBoundaryCondition (setCell (clear s) 0 0 true)
          BoundaryCondition.PERIODIC).grid
          ((GRID_WIDTH - 1 + d.1 + GRID_WIDTH).tmod GRID_WIDTH)
          ((GRID_HEIGHT - 1 + d.2 + GRID_HEIGHT).tmod GRID_HEIGHT) = some true)) =
        mooreOffsets.filter (fun d => decide (d.1 = 1 ∧ d.2 = 1)) := by
      apply List.filter_congr
      intro d hd
      obtain ⟨dx, dy⟩ := d
      rw [mem_mooreOffsets] at hd
      have hx := tmod_wrap (GRID_WIDTH - 1 + dx) (by unfold GRID_WIDTH; omega)
        (by unfold GRID_WIDTH; omega)
      have hy := tmod_wrap (GRID_HEIGHT - 1 + dy) (by unfold GRID_HEIGHT; omega)
        (by unfold GRID_HEIGHT; omega)
      have hin : InRange ((GRID_WIDTH - 1 + dx + GRID_WIDTH).tmod GRID_WIDTH)
          ((GRID_HEIGHT - 1 + dy + GRID_HEIGHT).tmod GRID_HEIGHT) :=
        ⟨hx.2.2.1, hx.2.2.2, hy.2.2.1, hy.2.2.2⟩
      rw [← getCell_of_inRange _ hin, getCell_setBoundaryCondition, getCell_single s hg]
      have h1 := hx.1
      have h2 := hy.1
      unfold GRID_WIDTH at h1 ⊢
      unfold GRID_HEIGHT at h2 ⊢
      simp only [decide_eq_decide]
      omega
    rw [e]
    decide
  · rw [countNeighbors_reflective _ rfl]
    have e : mooreOffsets.filter (fun d =>
        getCell (setBoundaryCondition (setCell (clear s) 0 0 true)
          BoundaryCondition.REFLECTIVE) (GRID_WIDTH - 1 + d.1) (GRID_HEIGHT - 1 + d.2)) = [] := by
      rw [List.filter_eq_nil_iff]
      intro d hd
      obtain ⟨dx, dy⟩ := d
      rw [mem_mooreOffsets] at hd
      rw [getCell_setBoundaryCondition, getCell_single s hg]
      unfold GRID_WIDTH GRID_HEIGHT
      simp only [decide_eq_true_eq]
      omega
    rw [e]
    rfl

/-- Witness for C6, starting from the freshly constructed engine. -/
theorem corner_neighbor_count_witness :
    WellFormed new.grid ∧
      countNeighbors (setBoundaryCondition (setCell (clear new) 0 0 true)
        BoundaryCondition.PERIODIC) 199 199 = 1 ∧
      countNeighbors (setBoundaryCondition (setCell (clear new) 0 0 true)
        BoundaryCondition.REFLECTIVE) 199 199 = 0 :=
  ⟨wellFormed_new_grid, (corner_neighbor_count new wellFormed_new_grid).2⟩

/-- C7: `applyConwayRule` is exactly B3/S23 and `applyCustomRule` is exactly
B36/S23, for every boolean and every integer neighbour count. -/
theorem rules_spec (alive : Bool) (n : Int) :
    (applyConwayRule alive n = true ↔
      (alive = true ∧ (n = 2 ∨ n = 3)) ∨ (alive = false ∧ n = 3)) ∧
    (applyCustomRule alive n = true ↔
      (alive = true ∧ (n = 2 ∨ n = 3)) ∨ (alive = false ∧ (n = 3 ∨ n = 6))) := by
  cases alive <;> simp [applyConwayRule, applyCustomRule]

/-- C8: the two rules differ at a dead cell with six neighbours, where the custom
rule births and the Conway rule does not, and agree on every other input. -/
theorem rules_differ_only_at_dead_six :
    applyCustomRule false 6 = true ∧ applyConwayRule false 6 = false ∧
      ∀ (alive : Bool) (n : Int), (alive, n) ≠ (false, 6) →
        applyCustomRule alive n = applyConwayRule alive n := by
  refine ⟨by decide, by decide, ?_⟩
  intro alive n h
  cases alive
  · have hn : n ≠ 6 := fun h6 => h (by rw [h6])
    simp [applyConwayRule, applyCustomRule, hn]
  · simp [applyConwayRule, applyCustomRule]

/-- Witness for C8 at a live cell with two neighbours. -/
theorem rules_differ_only_at_dead_six_witness :
    (true, (2 : Int)) ≠ (false, (6 : Int)) ∧
      applyCustomRule true 2 = applyConwayRule true 2 :=
  ⟨by decide, rules_differ_only_at_dead_six.2.2 true 2 (by decide)⟩

/-- C9: the block is a still life. For every anchor with all four cells inside
the grid, either boundary condition and every number of steps, `initBlock`
followed by that many `update` calls under the Conway rule leaves the grid equal,
cell for cell, to the grid right after `initBlock`. -/
theorem block_still_life (s : State) (hg : WellFormed s.grid) (hn : WellFormed s.nextGrid)
    (hrule : s.currentRule = Rule.CONWAY) (sx sy : Int)
    (hx0 : 0 ≤ sx) (hx1 : sx ≤ GRID_WIDTH - 2) (hy0 : 0 ≤ sy) (hy1 : sy ≤ GRID_HEIGHT - 2)
    (n : Nat) :
    (update^[n] (initBlock s sx sy)).grid = (initBlock s sx sy).grid := by
  have hx1 : sx ≤ 198 := by unfold GRID_WIDTH at hx1; omega
  have hy1 : sy ≤ 198 := by unfold GRID_HEIGHT at hy1; omega
  have hg0 := wellFormed_initBlock hg sx sy
  cases hbc : s.boundaryCondition with
  | PERIODIC =>
    have hr : Running (initBlock s sx sy) BoundaryCondition.PERIODIC :=
      ⟨hg0, by rw [initBlock_nextGrid]; exact hn, by rw [initBlock_currentRule]; exact hrule,
        by rw [initBlock_boundaryCondition]; exact hbc⟩
    have h0 := shows_initBlock s hg sx sy hx0 hx1 hy0 hy1
    have hk := block_periodic_iterate _ hr _ _ h0 n
    exact grid_eq_of_shows hk.1.grid hg0 hk.2 h0
  | REFLECTIVE =>
    have hr : Running (initBlock s sx sy) BoundaryCondition.REFLECTIVE :=
      ⟨hg0, by rw [initBlock_nextGrid]; exact hn, by rw [initBlock_currentRule]; exact hrule,
        by rw [initBlock_boundaryCondition]; exact hbc⟩
    have h0 := planeShows_initBlock s hg sx sy hx0 hx1 hy0 hy1
    have hin : ∀ p ∈ blockPlane, InRange (sx - 1 + p.1) (sy - 1 + p.2) := by
      intro p hp
      unfold blockPlane at hp
      simp only [List.mem_cons, List.mem_singleton, List.not_mem_nil, or_false] at hp
      unfold InRange GRID_WIDTH GRID_HEIGHT
      rcases hp with rfl | rfl | rfl | rfl <;> simp only <;> omega
    have hk := block_reflective_iterate _ hr _ _ h0 hin n
    exact grid_eq_of_getCell hk.1.grid hg0 (fun x y _ => (hk.2 x y).trans (h0 x y).symm)

/-- Witness for C9: the anchor `(100, 100)` used by `main`, seven steps. -/
theorem block_still_life_witness :
    WellFormed new.grid ∧ WellFormed new.nextGrid ∧ new.currentRule = Rule.CONWAY ∧
      (0 : Int) ≤ 100 ∧ (100 : Int) ≤ GRID_WIDTH - 2 ∧ (100 : Int) ≤ GRID_HEIGHT - 2 ∧
      (update^[7] (initBlock new 100 100)).grid = (initBlock new 100 100).grid :=
  ⟨wellFormed_new_grid, wellFormed_new_nextGrid, rfl, by decide, by decide, by decide,
    block_still_life new wellFormed_new_grid wellFormed_new_nextGrid rfl 100 100
      (by decide) (by decide) (by decide) (by decide) 7⟩

theorem look_eq_false_of_box {kx ky : Nat} {R : List Nat} (hlen : R.length ≤ ky + 1)
    (hbits : ∀ r ∈ R, r < 2 ^ (kx + 1)) {a b : Nat} (hab : kx < a ∨ ky < b) :
    look R a b = false := by
  unfold look
  by_cases hb : b < R.length
  · rcases hab with h | h
    · have hmem : R.getD b 0 ∈ R := by
        rw [List.getD_eq_getElem _ _ hb]
        exact List.getElem_mem hb
      have hlt := hbits _ hmem
      apply Nat.testBit_lt_two_pow
      exact lt_of_lt_of_le hlt (Nat.pow_le_pow_right (by decide) h)
    · omega
  · rw [List.getD_eq_default _ _ (by omega)]
    exact Nat.zero_testBit a

theorem pat_eq_look {kx ky : Nat} {L : List (Nat × Nat)} {R : List Nat}
    (h : agree kx ky L R = true) (a b : Nat) : pat L a b = look R a b := by
  unfold agree at h
  simp only [Bool.and_eq_true, decide_eq_true_eq] at h
  obtain ⟨⟨⟨hL, hlen⟩, hbits⟩, hw⟩ := h
  by_cases hin : a < kx + 2 ∧ b < ky + 2
  · rw [List.all_eq_true] at hw
    have h1 := hw a (List.mem_range.mpr hin.1)
    rw [List.all_eq_true] at h1
    exact eq_of_beq (h1 b (List.mem_range.mpr hin.2))
  · rw [pat_eq_false_of_inBox hL (by omega)]
    have hb2 : ∀ r ∈ R, r < 2 ^ (kx + 1) := by
      intro r hr
      rw [List.all_eq_true] at hbits
      simpa using hbits r hr
    exact (look_eq_false_of_box hlen hb2 (by omega)).symm

theorem torusNext_eq_torusNextP (L : List (Nat × Nat)) (a b : Nat) :
    torusNext L a b = torusNextP (pat L) a b := by
  unfold torusNext torusNextP torusCount
  rfl

theorem windowStep_of_fastStep {kx ky : Nat} {L L2 : List (Nat × Nat)} {R R2 : List Nat}
    (h1 : agree kx ky L R = true) (h2 : agree kx ky L2 R2 = true)
    (h3 : fastStep kx ky R R2 = true) : windowStep kx ky L L2 = true := by
  have e1 : pat L = look R := by
    funext a b
    exact pat_eq_look h1 a b
  have e2 : pat L2 = look R2 := by
    funext a b
    exact pat_eq_look h2 a b
  have b1 : inBox kx ky L = true := by
    unfold agree at h1
    simp only [Bool.and_eq_true] at h1
    exact h1.1.1.1
  have b2 : inBox kx ky L2 = true := by
    unfold agree at h2
    simp only [Bool.and_eq_true] at h2
    exact h2.1.1.1
  unfold windowStep
  rw [b1, b2]
  simp only [Bool.and_self, Bool.true_and]
  unfold fastStep at h3
  rw [List.all_eq_true] at h3 ⊢
  intro a ha
  have h4 := h3 a ha
  rw [List.all_eq_true] at h4 ⊢
  intro b hb
  have h5 := h4 b hb
  rw [torusNext_eq_torusNextP, e1, e2]
  exact h5

theorem penta_agree0 : agree 9 16 pentaGen0 pentaRows0 = true := by decide!

theorem penta_agree1 : agree 9 16 pentaGen1 pentaRows1 = true := by decide!

theorem penta_agree2 : agree 9 16 pentaGen2 pentaRows2 = true := by decide!

theorem penta_agree3 : agree 9 16 pentaGen3 pentaRows3 = true := by decide!

theorem penta_agree4 : agree 9 16 pentaGen4 pentaRows4 = true := by decide!

theorem penta_agree5 : agree 9 16 pentaGen5 pentaRows5 = true := by decide!

theorem penta_agree6 : agree 9 16 pentaGen6 pentaRows6 = true := by decide!

theorem penta_agree7 : agree 9 16 pentaGen7 pentaRows7 = true := by decide!

theorem penta_agree8 : agree 9 16 pentaGen8 pentaRows8 = true := by decide!

theorem penta_agree9 : agree 9 16 pentaGen9 pentaRows9 = true := by decide!

theorem penta_agree10 : agree 9 16 pentaGen10 pentaRows10 = true := by decide!

theorem penta_agree11 : agree 9 16 pentaGen11 pentaRows11 = true := by decide!

theorem penta_agree12 : agree 9 16 pentaGen12 pentaRows12 = true := by decide!

theorem penta_agree13 : agree 9 16 pentaGen13 pentaRows13 = true := by decide!

theorem penta_agree14 : agree 9 16 pentaGen14 pentaRows14 = true := by decide!

theorem penta_fast0 : fastStep 9 16 pentaRows0 pentaRows1 = true := by decide!

theorem penta_fast1 : fastStep 9 16 pentaRows1 pentaRows2 = true := by decide!

theorem penta_fast2 : fastStep 9 16 pentaRows2 pentaRows3 = true := by decide!

theorem penta_fast3 : fastStep 9 16 pentaRows3 pentaRows4 = true := by decide!

theorem penta_fast4 : fastStep 9 16 pentaRows4 pentaRows5 = true := by decide!

theorem penta_fast5 : fastStep 9 16 pentaRows5 pentaRows6 = true := by decide!

theorem penta_fast6 : fastStep 9 16 pentaRows6 pentaRows7 = true := by decide!

theorem penta_fast7 : fastStep 9 16 pentaRows7 pentaRows8 = true := by decide!

theorem penta_fast8 : fastStep 9 16 pentaRows8 pentaRows9 = true := by decide!

theorem penta_fast9 : fastStep 9 16 pentaRows9 pentaRows10 = true := by decide!

theorem penta_fast10 : fastStep 9 16 pentaRows10 pentaRows11 = true := by decide!

theorem penta_fast11 : fastStep 9 16 pentaRows11 pentaRows12 = true := by decide!

theorem penta_fast12 : fastStep 9 16 pentaRows12 pentaRows13 = true := by decide!

theorem penta_fast13 : fastStep 9 16 pentaRows13 pentaRows14 = true := by decide!

theorem penta_fast14 : fastStep 9 16 pentaRows14 pentaRows0 = true := by decide!

theorem penta_step0 : windowStep 9 16 pentaGen0 pentaGen1 = true :=
  windowStep_of_fastStep penta_agree0 penta_agree1 penta_fast0

theorem penta_step1 : windowStep 9 16 pentaGen1 pentaGen2 = true :=
  windowStep_of_fastStep penta_agree1 penta_agree2 penta_fast1

theorem penta_step2 : windowStep 9 16 pentaGen2 pentaGen3 = true :=
  windowStep_of_fastStep penta_agree2 penta_agree3 penta_fast2

theorem penta_step3 : windowStep 9 16 pentaGen3 pentaGen4 = true :=
  windowStep_of_fastStep penta_agree3 penta_agree4 penta_fast3

theorem penta_step4 : windowStep 9 16 pentaGen4 pentaGen5 = true :=
  windowStep_of_fastStep penta_agree4 penta_agree5 penta_fast4

theorem penta_step5 : windowStep 9 16 pentaGen5 pentaGen6 = true :=
  windowStep_of_fastStep penta_agree5 penta_agree6 penta_fast5

theorem penta_step6 : windowStep 9 16 pentaGen6 pentaGen7 = true :=
  windowStep_of_fastStep penta_agree6 penta_agree7 penta_fast6

theorem penta_step7 : windowStep 9 16 pentaGen7 pentaGen8 = true :=
  windowStep_of_fastStep penta_agree7 penta_agree8 penta_fast7

theorem penta_step8 : windowStep 9 16 pentaGen8 pentaGen9 = true :=
  windowStep_of_fastStep penta_agree8 penta_agree9 penta_fast8

theorem penta_step9 : windowStep 9 16 pentaGen9 pentaGen10 = true :=
  windowStep_of_fastStep penta_agree9 penta_agree10 penta_fast9

theorem penta_step10 : windowStep 9 16 pentaGen10 pentaGen11 = true :=
  windowStep_of_fastStep penta_agree10 penta_agree11 penta_fast10

theorem penta_step11 : windowStep 9 16 pentaGen11 pentaGen12 = true :=
  windowStep_of_fastStep penta_agree11 penta_agree12 penta_fast11

theorem penta_step12 : windowStep 9 16 pentaGen12 pentaGen13 = true :=
  windowStep_of_fastStep penta_agree12 penta_agree13 penta_fast12

theorem penta_step13 : windowStep 9 16 pentaGen13 pentaGen14 = true :=
  windowStep_of_fastStep penta_agree13 penta_agree14 penta_fast13

theorem penta_step14 : windowStep 9 16 pentaGen14 pentaGen0 = true :=
  windowStep_of_fastStep penta_agree14 penta_agree0 penta_fast14

theorem initPentadecathlon_eq (s : State) (sx sy : Int) :
    initPentadecathlon s sx sy = setCells (clear (pentaLoop s sx sy)) (pentaCells sx sy) := by
  unfold initPentadecathlon pentaLoop pentaCells setCells
  rfl

theorem pentaLoop_frame (s : State) (hg : WellFormed s.grid) (sx sy : Int) :
    WellFormed (pentaLoop s sx sy).grid ∧ (pentaLoop s sx sy).nextGrid = s.nextGrid ∧
      (pentaLoop s sx sy).currentRule = s.currentRule ∧
      (pentaLoop s sx sy).boundaryCondition = s.boundaryCondition := by
  unfold pentaLoop
  apply forRange_induction (fun t : State => WellFormed t.grid ∧ t.nextGrid = s.nextGrid ∧
      t.currentRule = s.currentRule ∧ t.boundaryCondition = s.boundaryCondition)
  · exact ⟨wellFormed_clear hg, clear_nextGrid s, clear_currentRule s,
      clear_boundaryCondition s⟩
  · intro i t ht
    obtain ⟨h1, h2, h3, h4⟩ := ht
    split
    · exact ⟨wellFormed_setCell (wellFormed_setCell h1 _ _ _) _ _ _,
        by rw [setCell_nextGrid, setCell_nextGrid, h2],
        by rw [setCell_currentRule, setCell_currentRule, h3],
        by rw [setCell_boundaryCondition, setCell_boundaryCondition, h4]⟩
    · exact ⟨wellFormed_setCell h1 _ _ _, by rw [setCell_nextGrid, h2],
        by rw [setCell_currentRule, h3], by rw [setCell_boundaryCondition, h4]⟩

theorem wellFormed_initPentadecathlon {s : State} (hg : WellFormed s.grid) (sx sy : Int) :
    WellFormed (initPentadecathlon s sx sy).grid := by
  rw [initPentadecathlon_eq]
  exact wellFormed_setCells (wellFormed_clear (pentaLoop_frame s hg sx sy).1) _

theorem initPentadecathlon_nextGrid (s : State) (hg : WellFormed s.grid) (sx sy : Int) :
    (initPentadecathlon s sx sy).nextGrid = s.nextGrid := by
  rw [initPentadecathlon_eq, setCells_nextGrid, clear_nextGrid, (pentaLoop_frame s hg sx sy).2.1]

theorem initPentadecathlon_currentRule (s : State) (hg : WellFormed s.grid) (sx sy : Int) :
    (initPentadecathlon s sx sy).currentRule = s.currentRule := by
  rw [initPentadecathlon_eq, setCells_currentRule, clear_currentRule,
    (pentaLoop_frame s hg sx sy).2.2.1]

theorem initPentadecathlon_boundaryCondition (s : State) (hg : WellFormed s.grid)
    (sx sy : Int) :
    (initPentadecathlon s sx sy).boundaryCondition = s.boundaryCondition := by
  rw [initPentadecathlon_eq, setCells_boundaryCondition, clear_boundaryCondition,
    (pentaLoop_frame s hg sx sy).2.2.2]

theorem pentaCells_inRange (sx sy : Int) (hx0 : 1 ≤ sx) (hx1 : sx ≤ 198) (hy0 : 0 ≤ sy)
    (hy1 : sy ≤ 190) : ∀ p ∈ pentaCells sx sy, InRange p.1 p.2 := by
  intro p hp
  unfold pentaCells at hp
  simp only [List.mem_cons, List.mem_singleton, List.not_mem_nil, or_false] at hp
  unfold InRange GRID_WIDTH GRID_HEIGHT
  rcases hp with rfl | rfl | rfl | rfl | rfl | rfl | rfl | rfl | rfl | rfl | rfl | rfl <;>
    simp only <;> omega

theorem shows_initPentadecathlon (s : State) (hg : WellFormed s.grid) (sx sy : Int)
    (hx0 : 1 ≤ sx) (hx1 : sx ≤ 198) (hy0 : 0 ≤ sy) (hy1 : sy ≤ 190) :
    Shows (initPentadecathlon s sx sy) (sx - 5) (sy - 4) pentaGen0 := by
  have h := shows_setCells (pentaLoop s sx sy) (pentaLoop_frame s hg sx sy).1
    (pentaCells sx sy) (sx - 5) (sy - 4) (pentaCells_inRange sx sy hx0 hx1 hy0 hy1)
  rw [initPentadecathlon_eq]
  have e : (pentaCells sx sy).map
        (fun p => (((p.1 - (sx - 5)) % 200).toNat, ((p.2 - (sy - 4)) % 200).toNat)) =
      pentaGen0 := by
    simp only [pentaCells, List.map, pentaGen0, List.cons.injEq, Prod.mk.injEq, and_true]
    omega
  rw [e] at h
  exact h

theorem mem_placed (offs : List (Int × Int)) (sx sy x y : Int) :
    (x, y) ∈ placed offs sx sy ↔ (x - sx, y - sy) ∈ offs := by
  unfold placed
  rw [List.mem_map]
  constructor
  · rintro ⟨d, hd, he⟩
    rw [Prod.mk.injEq] at he
    have e : (x - sx, y - sy) = d := by
      obtain ⟨d1, d2⟩ := d
      rw [Prod.mk.injEq]
      simp only at he
      constructor <;> omega
    rw [e]
    exact hd
  · intro h
    refine ⟨_, h, ?_⟩
    rw [Prod.mk.injEq]
    simp only
    constructor <;> omega

theorem nodup_placed {offs : List (Int × Int)} (h : offs.Nodup) (sx sy : Int) :
    (placed offs sx sy).Nodup := by
  unfold placed
  apply List.Nodup.map _ h
  intro a b hab
  obtain ⟨a1, a2⟩ := a
  obtain ⟨b1, b2⟩ := b
  rw [Prod.mk.injEq] at hab
  simp only at hab
  rw [Prod.mk.injEq]
  constructor <;> omega

theorem mem_allCells (x y : Int) : (x, y) ∈ allCells ↔ InRange x y := by
  have hw : GRID_WIDTH.toNat = 200 := by decide
  have hh : GRID_HEIGHT.toNat = 200 := by decide
  unfold allCells InRange GRID_WIDTH GRID_HEIGHT
  rw [List.mem_map]
  constructor
  · rintro ⟨p, hp, he⟩
    obtain ⟨p1, p2⟩ := p
    rw [List.pair_mem_product, List.mem_range, List.mem_range] at hp
    change p1 < 200 ∧ p2 < 200 at hp
    rw [Prod.mk.injEq] at he
    simp only at he
    omega
  · intro h
    refine ⟨(y.toNat, x.toNat), ?_, ?_⟩
    · rw [List.pair_mem_product, List.mem_range, List.mem_range]
      change y.toNat < 200 ∧ x.toNat < 200
      omega
    · rw [Prod.mk.injEq]
      simp only
      constructor <;> omega

theorem nodup_allCells : allCells.Nodup := by
  unfold allCells
  apply List.Nodup.map _ (List.Nodup.product (List.nodup_range _) (List.nodup_range _))
  intro a b hab
  obtain ⟨a1, a2⟩ := a
  obtain ⟨b1, b2⟩ := b
  rw [Prod.mk.injEq] at hab
  simp only at hab
  rw [Prod.mk.injEq]
  constructor <;> omega

theorem aliveCount_eq_length (s : State) (cells : List (Int × Int)) (hnd : cells.Nodup)
    (hin : ∀ p ∈ cells, InRange p.1 p.2)
    (h : ∀ x y : Int, getCell s x y = true ↔ InRange x y ∧ (x, y) ∈ cells) :
    aliveCount s = cells.length := by
  unfold aliveCount
  apply List.Perm.length_eq
  rw [List.perm_ext_iff_of_nodup (List.Nodup.filter _ nodup_allCells) hnd]
  intro p
  obtain ⟨x, y⟩ := p
  rw [List.mem_filter, mem_allCells]
  simp only
  rw [h x y]
  constructor
  · rintro ⟨_, _, hm⟩
    exact hm
  · intro hm
    exact ⟨hin _ hm, hin _ hm, hm⟩

theorem setCells_generation (s : State) (cells : List (Int × Int)) :
    (setCells s cells).generation = s.generation := by
  induction cells generalizing s with
  | nil => rfl
  | cons p t ih =>
    have e : setCells s (p :: t) = setCells (setCell s p.1 p.2 true) t := rfl
    rw [e, ih, setCell_generation]

theorem clear_generation (s : State) : (clear s).generation = 0 := by
  unfold clear
  rfl

theorem placesExactly_setCells (s : State) (hg : WellFormed s.grid) (offs : List (Int × Int))
    (hnd : offs.Nodup) (sx sy : Int) :
    PlacesExactly (setCells (clear s) (placed offs sx sy)) offs sx sy := by
  have hcell : ∀ x y : Int, getCell (setCells (clear s) (placed offs sx sy)) x y = true ↔
      InRange x y ∧ (x, y) ∈ placed offs sx sy := by
    intro x y
    rw [getCell_setCells _ (wellFormed_clear hg), getCell_clear, Bool.or_false,
      decide_eq_true_eq]
    exact And.comm
  refine ⟨by rw [setCells_generation, clear_generation], ?_, ?_⟩
  · intro x y
    rw [hcell, mem_placed]
  · intro hin
    have hl : (placed offs sx sy).length = offs.length := by
      unfold placed
      rw [List.length_map]
    rw [← hl]
    apply aliveCount_eq_length _ _ (nodup_placed hnd sx sy) _ hcell
    intro p hp
    unfold placed at hp
    rw [List.mem_map] at hp
    obtain ⟨d, hd, rfl⟩ := hp
    exact hin d hd

theorem initGlider_placed (s : State) (sx sy : Int) :
    initGlider s sx sy = setCells (clear s) (placed gliderOffsets sx sy) := by
  rw [initGlider_eq]
  congr 1
  simp only [placed, gliderOffsets, List.map, List.cons.injEq, Prod.mk.injEq, add_zero,
    and_self, true_and, and_true]

theorem initBlock_placed (s : State) (sx sy : Int) :
    initBlock s sx sy = setCells (clear s) (placed blockOffsets sx sy) := by
  rw [initBlock_eq]
  congr 1
  simp only [placed, blockOffsets, List.map, List.cons.injEq, Prod.mk.injEq, add_zero,
    and_self, true_and, and_true]

theorem initRPentomino_eq (s : State) (sx sy : Int) :
    initRPentomino s sx sy =
      setCells (clear s)
        [(sx + 1, sy), (sx + 2, sy), (sx, sy + 1), (sx + 1, sy + 1), (sx + 1, sy + 2)] := by
  unfold initRPentomino setCells
  rfl

theorem initRPentomino_placed (s : State) (sx sy : Int) :
    initRPentomino s sx sy = setCells (clear s) (placed rPentominoOffsets sx sy) := by
  rw [initRPentomino_eq]
  congr 1
  simp only [placed, rPentominoOffsets, List.map, List.cons.injEq, Prod.mk.injEq, add_zero,
    and_self, true_and, and_true]

theorem initPentadecathlon_placed (s : State) (sx sy : Int) :
    initPentadecathlon s sx sy =
      setCells (clear (pentaLoop s sx sy)) (placed pentadecathlonOffsets sx sy) := by
  rw [initPentadecathlon_eq]
  congr 1
  simp only [pentaCells, placed, pentadecathlonOffsets, List.map, List.cons.injEq,
    Prod.mk.injEq, add_zero, and_self, true_and, and_true]
  all_goals omega

theorem grid_eq_of_placesExactly {s t : State} (hs : WellFormed s.grid)
    (ht : WellFormed t.grid) {offs : List (Int × Int)} {sx sy : Int}
    (h1 : PlacesExactly s offs sx sy) (h2 : PlacesExactly t offs sx sy) : s.grid = t.grid := by
  apply grid_eq_of_getCell hs ht
  intro x y _
  rw [Bool.eq_iff_iff, h1.2.1 x y, h2.2.1 x y]

theorem run_cons (op : Op) (ops : List Op) (s : State) :
    run (op :: ops) s = run ops (applyOp s op) := rfl

theorem run_append (ops1 ops2 : List Op) (s : State) :
    run (ops1 ++ ops2) s = run ops2 (run ops1 s) := by
  unfold run
  rw [List.foldl_append]

theorem wellFormed_initRPentomino {s : State} (hg : WellFormed s.grid) (sx sy : Int) :
    WellFormed (initRPentomino s sx sy).grid := by
  rw [initRPentomino_eq]
  exact wellFormed_setCells (wellFormed_clear hg) _

theorem initRPentomino_nextGrid (s : State) (sx sy : Int) :
    (initRPentomino s sx sy).nextGrid = s.nextGrid := by
  rw [initRPentomino_eq, setCells_nextGrid, clear_nextGrid]

theorem wellFormed_applyOp (s : State) (op : Op) (hg : WellFormed s.grid)
    (hn : WellFormed s.nextGrid) :
    WellFormed (applyOp s op).grid ∧ WellFormed (applyOp s op).nextGrid := by
  cases op with
  | clear =>
    refine ⟨wellFormed_clear hg, ?_⟩
    show WellFormed (clear s).nextGrid
    rw [clear_nextGrid]
    exact hn
  | setCell x y a =>
    refine ⟨wellFormed_setCell hg x y a, ?_⟩
    show WellFormed (setCell s x y a).nextGrid
    rw [setCell_nextGrid]
    exact hn
  | setBoundaryCondition bc => exact ⟨hg, hn⟩
  | setRule r => exact ⟨hg, hn⟩
  | update =>
    refine ⟨wellFormed_update_grid hn, ?_⟩
    show WellFormed (update s).nextGrid
    rw [update_nextGrid]
    exact hg
  | initGlider x y =>
    refine ⟨wellFormed_initGlider hg x y, ?_⟩
    show WellFormed (initGlider s x y).nextGrid
    rw [initGlider_nextGrid]
    exact hn
  | initBlock x y =>
    refine ⟨wellFormed_initBlock hg x y, ?_⟩
    show WellFormed (initBlock s x y).nextGrid
    rw [initBlock_nextGrid]
    exact hn
  | initPentadecathlon x y =>
    refine ⟨wellFormed_initPentadecathlon hg x y, ?_⟩
    show WellFormed (initPentadecathlon s x y).nextGrid
    rw [initPentadecathlon_nextGrid s hg]
    exact hn
  | initRPentomino x y =>
    refine ⟨wellFormed_initRPentomino hg x y, ?_⟩
    show WellFormed (initRPentomino s x y).nextGrid
    rw [initRPentomino_nextGrid]
    exact hn

theorem wellFormed_run (ops : List Op) (s : State) (hg : WellFormed s.grid)
    (hn : WellFormed s.nextGrid) :
    WellFormed (run ops s).grid ∧ WellFormed (run ops s).nextGrid := by
  induction ops generalizing s with
  | nil => exact ⟨hg, hn⟩
  | cons op t ih =>
    rw [run_cons]
    exact ih _ (wellFormed_applyOp s op hg hn).1 (wellFormed_applyOp s op hg hn).2

theorem wellFormed_rows {g : Grid} (hg : WellFormed g) :
    g.length = 200 ∧ ∀ row ∈ g, row.length = 200 := by
  refine ⟨wellFormed_length hg, ?_⟩
  intro row hrow
  obtain ⟨i, hi, rfl⟩ := List.getElem_of_mem hrow
  have hlen := wellFormed_length hg
  obtain ⟨r, hr, hl⟩ := wellFormed_row hg i (by omega)
  rw [List.getElem?_eq_getElem hi] at hr
  rw [Option.some.inj hr]
  exact hl

theorem inPlaceStep_eq (st : State) (x y : Int) :
    inPlaceStep st x y = { st with grid := writeCell st.grid x y (nextCell st x y) } := by
  unfold inPlaceStep nextCell
  simp only
  split <;> rfl

theorem getCell_inPlaceStep_other (st : State) (x y x' y' : Int) (h : ¬ (x' = x ∧ y' = y)) :
    getCell (inPlaceStep st x y) x' y' = getCell st x' y' := by
  rw [inPlaceStep_eq]
  unfold getCell
  simp only [readCell_writeCell, if_neg h]

theorem getCell_inPlaceStep_self (st : State) (hg : WellFormed st.grid) (x y : Int)
    (h : InRange x y) : getCell (inPlaceStep st x y) x y = nextCell st x y := by
  rw [inPlaceStep_eq, getCell_of_inRange _ h]
  simp only [readCell_writeCell, and_self, if_true]
  obtain ⟨b, hb⟩ := readCell_of_wellFormed hg h
  rw [hb]
  simp

theorem wellFormed_inPlaceStep {st : State} (hg : WellFormed st.grid) (x y : Int) :
    WellFormed (inPlaceStep st x y).grid := by
  rw [inPlaceStep_eq]
  exact wellFormed_writeCell hg x y _

theorem inPlaceStep_currentRule (st : State) (x y : Int) :
    (inPlaceStep st x y).currentRule = st.currentRule := by
  rw [inPlaceStep_eq]

theorem inPlaceStep_boundaryCondition (st : State) (x y : Int) :
    (inPlaceStep st x y).boundaryCondition = st.boundaryCondition := by
  rw [inPlaceStep_eq]

theorem getCell_inPlaceRow_other (st : State) (n : Nat) (y x' y' : Int) (h : y' ≠ y) :
    getCell (forRange n (fun x st => inPlaceStep st x y) st) x' y' = getCell st x' y' := by
  apply forRange_induction (fun t : State => getCell t x' y' = getCell st x' y')
  · rfl
  · intro x t ht
    show getCell (inPlaceStep t x y) x' y' = getCell st x' y'
    rw [getCell_inPlaceStep_other t x y x' y' (fun hc => h hc.2), ht]

theorem getCell_inPlaceRow_tail (st : State) (y : Int) (k n : Nat) (hkn : k ≤ n) (x' y' : Int)
    (hx : x' < (k : Int)) :
    getCell (forRange n (fun x st => inPlaceStep st x y) st) x' y' =
      getCell (forRange k (fun x st => inPlaceStep st x y) st) x' y' := by
  induction n, hkn using Nat.le_induction with
  | base => rfl
  | succ m hm ih =>
    rw [forRange_succ, getCell_inPlaceStep_other _ _ _ _ _ (by omega), ih]

theorem getCell_inPlaceRows_tail (st : State) (k m : Nat) (hkm : k ≤ m) (x' y' : Int)
    (hy : y' < (k : Int)) :
    getCell (forRange m (fun y st =>
        forRange GRID_WIDTH.toNat (fun x st => inPlaceStep st x y) st) st) x' y' =
      getCell (forRange k (fun y st =>
        forRange GRID_WIDTH.toNat (fun x st => inPlaceStep st x y) st) st) x' y' := by
  induction m, hkm using Nat.le_induction with
  | base => rfl
  | succ j hj ih =>
    rw [forRange_succ, getCell_inPlaceRow_other _ _ _ _ _ (by omega), ih]

theorem bumpGeneration_grid (t : State) : (bumpGeneration t).grid = t.grid := rfl

theorem updateInPlace_grid (s : State) : (updateInPlace s).grid = (inPlacePass s).grid := by
  unfold updateInPlace
  exact bumpGeneration_grid _

theorem getCell_updateInPlace_row0 (s : State) (x' : Int) (k : Nat) (hk : k ≤ 200)
    (hx : x' < (k : Int)) :
    getCell (updateInPlace s) x' 0 =
      getCell (forRange k (fun x st => inPlaceStep st x 0) s) x' 0 := by
  have hH : GRID_HEIGHT.toNat = 200 := by decide
  have hW : GRID_WIDTH.toNat = 200 := by decide
  have e1 : getCell (updateInPlace s) x' 0 = getCell (inPlacePass s) x' 0 := by
    unfold getCell
    rw [updateInPlace_grid]
  unfold inPlacePass at e1
  rw [e1, getCell_inPlaceRows_tail s 1 GRID_HEIGHT.toNat (by rw [hH]; decide) x' 0 (by decide),
    forRange_succ, forRange_zero]
  exact getCell_inPlaceRow_tail s _ k GRID_WIDTH.toNat (by rw [hW]; exact hk) x' 0 hx

theorem getCell_new (x y : Int) : getCell new x y = false := by
  by_cases h : InRange x y
  · rw [getCell_of_inRange _ h]
    obtain ⟨h0, h1, h2, h3⟩ := h
    unfold GRID_WIDTH at h1
    unfold GRID_HEIGHT at h3
    have hW : GRID_WIDTH.toNat = 200 := by decide
    have hH : GRID_HEIGHT.toNat = 200 := by decide
    have e : readCell new.grid x y = some false := by
      unfold readCell new
      simp only [hW, hH]
      rw [if_pos ⟨h0, h2⟩, List.getElem?_replicate, if_pos (by omega)]
      simp only [Option.some_bind]
      rw [List.getElem?_replicate, if_pos (by omega)]
    rw [e]
    rfl
  · exact getCell_of_not_inRange _ h

theorem inPlaceExample_grid : WellFormed inPlaceExample.grid := by
  unfold inPlaceExample
  exact wellFormed_setCells (s := setBoundaryCondition new BoundaryCondition.REFLECTIVE)
    wellFormed_new_grid _

theorem inPlaceExample_nextGrid : WellFormed inPlaceExample.nextGrid := by
  unfold inPlaceExample
  rw [setCells_nextGrid]
  exact wellFormed_new_nextGrid

theorem inPlaceExample_currentRule : inPlaceExample.currentRule = Rule.CONWAY := by
  unfold inPlaceExample
  rw [setCells_currentRule]
  rfl

theorem inPlaceExample_boundaryCondition :
    inPlaceExample.boundaryCondition = BoundaryCondition.REFLECTIVE := by
  unfold inPlaceExample
  rw [setCells_boundaryCondition]
  rfl

theorem getCell_inPlaceExample (x y : Int) :
    getCell inPlaceExample x y = decide (y = 0 ∧ 0 ≤ x ∧ x ≤ 2) := by
  unfold inPlaceExample
  rw [getCell_setCells _ (show WellFormed
    (setBoundaryCondition new BoundaryCondition.REFLECTIVE).grid from wellFormed_new_grid),
    getCell_setBoundaryCondition, getCell_new, Bool.or_false, decide_eq_decide]
  simp only [List.mem_cons, List.mem_singleton, List.not_mem_nil, or_false, Prod.mk.injEq,
    InRange, GRID_WIDTH, GRID_HEIGHT]
  omega

theorem nextCell_conway_reflective (st : State) (hrule : st.currentRule = Rule.CONWAY)
    (hbc : st.boundaryCondition = BoundaryCondition.REFLECTIVE) {x y : Int}
    (h : InRange x y) :
    nextCell st x y =
      applyConwayRule (getCell st x y)
        ((mooreOffsets.filter (fun d => getCell st (x + d.1) (y + d.2))).length : Int) := by
  unfold nextCell
  rw [if_pos hrule, ← getCell_of_inRange st h, countNeighbors_reflective st hbc]

theorem getCell_update_inPlaceExample : getCell (update inPlaceExample) 1 0 = true := by
  rw [getCell_update _ inPlaceExample_nextGrid (by decide), if_pos inPlaceExample_currentRule,
    countNeighbors_reflective _ inPlaceExample_boundaryCondition]
  simp only [getCell_inPlaceExample]
  decide

theorem getCell_updateInPlace_inPlaceExample :
    getCell (updateInPlace inPlaceExample) 1 0 = false := by
  rw [getCell_updateInPlace_row0 inPlaceExample 1 2 (by decide) (by decide), forRange_succ,
    forRange_succ, forRange_zero]
  have hg1 : WellFormed (inPlaceStep inPlaceExample 0 0).grid :=
    wellFormed_inPlaceStep inPlaceExample_grid 0 0
  have hr1 : (inPlaceStep inPlaceExample 0 0).currentRule = Rule.CONWAY := by
    rw [inPlaceStep_currentRule]
    exact inPlaceExample_currentRule
  have hb1 : (inPlaceStep inPlaceExample 0 0).boundaryCondition =
      BoundaryCondition.REFLECTIVE := by
    rw [inPlaceStep_boundaryCondition]
    exact inPlaceExample_boundaryCondition
  have h00 : nextCell inPlaceExample 0 0 = false := by
    rw [nextCell_conway_reflective _ inPlaceExample_currentRule
      inPlaceExample_boundaryCondition (by decide)]
    simp only [getCell_inPlaceExample]
    decide
  have hst1 : ∀ x y : Int, getCell (inPlaceStep inPlaceExample 0 0) x y =
      decide (y = 0 ∧ 1 ≤ x ∧ x ≤ 2) := by
    intro x y
    by_cases hxy : x = 0 ∧ y = 0
    · obtain ⟨rfl, rfl⟩ := hxy
      rw [getCell_inPlaceStep_self _ inPlaceExample_grid 0 0 (by decide), h00]
      decide
    · rw [getCell_inPlaceStep_other _ _ _ _ _ hxy, getCell_inPlaceExample, decide_eq_decide]
      omega
  show getCell (inPlaceStep (inPlaceStep inPlaceExample ((0 : Nat) : Int) 0)
    (((0 : Nat) + 1 : Nat) : Int) 0) 1 0 = false
  have c0 : (((0 : Nat) : Int)) = 0 := rfl
  have c1 : ((((0 : Nat) + 1 : Nat)) : Int) = 1 := rfl
  rw [c0, c1, getCell_inPlaceStep_self _ hg1 1 0 (by decide),
    nextCell_conway_reflective _ hr1 hb1 (by decide)]
  simp only [hst1]
  decide

theorem countNeighbors_congr (s t : State) (hgrid : s.grid = t.grid)
    (hbc : s.boundaryCondition = t.boundaryCondition) (x y : Int) :
    countNeighbors s x y = countNeighbors t x y := by
  rw [countNeighbors_eq_sum, countNeighbors_eq_sum]
  unfold contribution
  rw [hgrid, hbc]

theorem nextCell_congr (s t : State) (hgrid : s.grid = t.grid)
    (hbc : s.boundaryCondition = t.boundaryCondition)
    (hrule : s.currentRule = t.currentRule) (x y : Int) :
    nextCell s x y = nextCell t x y := by
  unfold nextCell
  rw [countNeighbors_congr s t hgrid hbc, hgrid, hrule]

theorem rasterPass_congr (f f2 : Int → Int → Bool) (g : Grid)
    (h : ∀ x y : Int, InRange x y → f x y = f2 x y) : rasterPass f g = rasterPass f2 g := by
  apply grid_ext
  · rw [shape_rasterPass, shape_rasterPass]
  · intro x y
    rw [readCell_rasterPass, readCell_rasterPass]
    by_cases hxy : InRange x y
    · rw [if_pos hxy, if_pos hxy, h x y hxy]
    · rw [if_neg hxy, if_neg hxy]

theorem rasterPass_eq_of_wellFormed (f : Int → Int → Bool) {g1 g2 : Grid}
    (h1 : WellFormed g1) (h2 : WellFormed g2) : rasterPass f g1 = rasterPass f g2 := by
  apply grid_ext
  · rw [shape_rasterPass, shape_rasterPass]
    unfold WellFormed at h1 h2
    rw [h1, h2]
  · intro x y
    rw [readCell_rasterPass, readCell_rasterPass]
    by_cases hxy : InRange x y
    · obtain ⟨b1, hb1⟩ := readCell_of_wellFormed h1 hxy
      obtain ⟨b2, hb2⟩ := readCell_of_wellFormed h2 hxy
      rw [if_pos hxy, if_pos hxy, hb1, hb2]
      rfl
    · rw [if_neg hxy, if_neg hxy, readCell_outside h1 hxy, readCell_outside h2 hxy]

theorem countNeighbors_bounds (s : State) (x y : Int) :
    0 ≤ countNeighbors s x y ∧ countNeighbors s x y ≤ 8 := by
  have hlen : mooreOffsets.length = 8 := rfl
  cases hbc : s.boundaryCondition with
  | PERIODIC =>
    rw [countNeighbors_periodic s hbc]
    have h := List.length_filter_le (fun d : Int × Int =>
      decide (readCell s.grid ((x + d.1 + GRID_WIDTH).tmod GRID_WIDTH)
        ((y + d.2 + GRID_HEIGHT).tmod GRID_HEIGHT) = some true)) mooreOffsets
    omega
  | REFLECTIVE =>
    rw [countNeighbors_reflective s hbc]
    have h := List.length_filter_le (fun d : Int × Int =>
      getCell s (x + d.1) (y + d.2)) mooreOffsets
    omega

theorem setCell_eq_of_inRange (s : State) {x y : Int} (h : InRange x y) (a : Bool) :
    setCell s x y a = { s with grid := writeCell s.grid x y a } := by
  unfold setCell
  exact if_pos h

theorem countNeighbors_setCell_self (s : State) (x y : Int) (h : InRange x y) (a : Bool) :
    countNeighbors (setCell s x y a) x y = countNeighbors s x y := by
  rw [setCell_eq_of_inRange s h, countNeighbors_eq_sum, countNeighbors_eq_sum]
  congr 1
  apply List.map_congr_left
  intro d hd
  obtain ⟨dx, dy⟩ := d
  rw [mem_mooreOffsets] at hd
  obtain ⟨hx0, hx1, hy0, hy1⟩ := h
  unfold GRID_WIDTH at hx1
  unfold GRID_HEIGHT at hy1
  have hx := tmod_wrap (x + dx) (by omega) (by omega)
  have hy := tmod_wrap (y + dy) (by omega) (by omega)
  unfold contribution
  simp only
  cases s.boundaryCondition with
  | PERIODIC =>
    simp only
    have hne : ¬ ((x + dx + GRID_WIDTH).tmod GRID_WIDTH = x ∧
        (y + dy + GRID_HEIGHT).tmod GRID_HEIGHT = y) := by
      have h1 := hx.1
      have h2 := hy.1
      unfold GRID_WIDTH GRID_HEIGHT
      omega
    rw [readCell_writeCell, if_neg hne]
  | REFLECTIVE =>
    simp only
    have hne : ¬ (x + dx = x ∧ y + dy = y) := by omega
    rw [readCell_writeCell, if_neg hne]

theorem getCell_congr_grid (s t : State) (h : s.grid = t.grid) (x y : Int) :
    getCell s x y = getCell t x y := by
  unfold getCell
  rw [h]

theorem getCell_update_applyRule (s : State) (hn : WellFormed s.nextGrid) {x y : Int}
    (h : InRange x y) :
    getCell (update s) x y = applyRule s.currentRule (getCell s x y) (countNeighbors s x y) := by
  rw [getCell_update s hn h]
  unfold applyRule
  cases s.currentRule <;> simp

theorem countNeighbors_setBoundaryCondition (s : State) (bc : BoundaryCondition) (x y : Int) :
    countNeighbors (setBoundaryCondition s bc) x y = neighborCountUnder bc s x y := by
  unfold neighborCountUnder
  cases bc with
  | PERIODIC => exact countNeighbors_periodic _ rfl x y
  | REFLECTIVE =>
    rw [countNeighbors_reflective _ rfl]
    simp only [getCell_setBoundaryCondition]

theorem getCell_setRule (s : State) (rule : Rule) (x y : Int) :
    getCell (setRule s rule) x y = getCell s x y := by
  unfold getCell setRule
  rfl

theorem countNeighbors_setRule (s : State) (rule : Rule) (x y : Int) :
    countNeighbors (setRule s rule) x y = countNeighbors s x y :=
  countNeighbors_congr _ _ rfl rfl x y

theorem staleExample_facts :
    WellFormed staleExample.nextGrid ∧ new.grid = staleExample.grid ∧
      new.boundaryCondition = staleExample.boundaryCondition ∧
      new.currentRule = staleExample.currentRule ∧
      new.generation = staleExample.generation := by
  unfold staleExample
  refine ⟨?_, ?_, ?_, ?_, ?_⟩
  · rw [clear_nextGrid, update_nextGrid]
    exact wellFormed_initBlock wellFormed_new_grid 100 100
  · apply grid_eq_of_getCell wellFormed_new_grid
    · apply wellFormed_clear
      apply wellFormed_update_grid
      rw [initBlock_nextGrid]
      exact wellFormed_new_nextGrid
    · intro x y _
      rw [getCell_new, getCell_clear]
  · rw [clear_boundaryCondition, update_boundaryCondition, initBlock_boundaryCondition]
  · rw [clear_currentRule, update_currentRule, initBlock_currentRule]
  · rw [clear_generation]
    rfl

/-! Further properties of the engine. -/

/-- C11: the pentadecathlon has period 15. For every anchor with all twelve
cells inside the grid, `initPentadecathlon` followed by fifteen `update` calls
under the Conway rule and the periodic boundary gives back, cell for cell, the
grid right after `initPentadecathlon`. -/
theorem pentadecathlon_period (s : State) (hg : WellFormed s.grid)
    (hn : WellFormed s.nextGrid) (hrule : s.currentRule = Rule.CONWAY)
    (hbc : s.boundaryCondition = BoundaryCondition.PERIODIC) (sx sy : Int)
    (hx0 : 1 ≤ sx) (hx1 : sx ≤ GRID_WIDTH - 2) (hy0 : 0 ≤ sy) (hy1 : sy ≤ GRID_HEIGHT - 10) :
    (update^[15] (initPentadecathlon s sx sy)).grid = (initPentadecathlon s sx sy).grid := by
  have hx1 : sx ≤ 198 := by unfold GRID_WIDTH at hx1; omega
  have hy1 : sy ≤ 190 := by unfold GRID_HEIGHT at hy1; omega
  have hg0 := wellFormed_initPentadecathlon hg sx sy
  have hr : Running (initPentadecathlon s sx sy) BoundaryCondition.PERIODIC :=
    ⟨hg0, by rw [initPentadecathlon_nextGrid s hg]; exact hn,
      by rw [initPentadecathlon_currentRule s hg]; exact hrule,
      by rw [initPentadecathlon_boundaryCondition s hg]; exact hbc⟩
  have h0 := shows_initPentadecathlon s hg sx sy hx0 hx1 hy0 hy1
  have h1 := shows_step hr h0 penta_step0
  have h2 := shows_step h1.1 h1.2 penta_step1
  have h3 := shows_step h2.1 h2.2 penta_step2
  have h4 := shows_step h3.1 h3.2 penta_step3
  have h5 := shows_step h4.1 h4.2 penta_step4
  have h6 := shows_step h5.1 h5.2 penta_step5
  have h7 := shows_step h6.1 h6.2 penta_step6
  have h8 := shows_step h7.1 h7.2 penta_step7
  have h9 := shows_step h8.1 h8.2 penta_step8
  have h10 := shows_step h9.1 h9.2 penta_step9
  have h11 := shows_step h10.1 h10.2 penta_step10
  have h12 := shows_step h11.1 h11.2 penta_step11
  have h13 := shows_step h12.1 h12.2 penta_step12
  have h14 := shows_step h13.1 h13.2 penta_step13
  have h15 := shows_step h14.1 h14.2 penta_step14
  exact grid_eq_of_shows h15.1.grid hg0 h15.2 h0

/-- Witness for C11: the anchor `(100, 95)` used by `main`. -/
theorem pentadecathlon_period_witness :
    WellFormed new.grid ∧ WellFormed new.nextGrid ∧ new.currentRule = Rule.CONWAY ∧
      new.boundaryCondition = BoundaryCondition.PERIODIC ∧
      (1 : Int) ≤ 100 ∧ (100 : Int) ≤ GRID_WIDTH - 2 ∧ (0 : Int) ≤ 95 ∧
      (95 : Int) ≤ GRID_HEIGHT - 10 ∧
      (update^[15] (initPentadecathlon new 100 95)).grid =
        (initPentadecathlon new 100 95).grid :=
  ⟨wellFormed_new_grid, wellFormed_new_nextGrid, rfl, rfl, by decide, by decide, by decide,
    by decide,
    pentadecathlon_period new wellFormed_new_grid wellFormed_new_nextGrid rfl rfl 100 95
      (by decide) (by decide) (by decide) (by decide)⟩

/-- C12: each pattern initialiser, from any engine state with a 200 by 200 grid
and for any anchor, leaves generation 0 and exactly the in-range cells at its
offsets alive, whatever the grid held before; when all offsets land in range the
number of alive cells is 5, 4, 5 and 12. The first placement loop and second
`clear` of `initPentadecathlon` do not change the result. -/
theorem initializers_place_exactly (s : State) (hg : WellFormed s.grid) (sx sy : Int) :
    (PlacesExactly (initGlider s sx sy) gliderOffsets sx sy ∧
      PlacesExactly (initBlock s sx sy) blockOffsets sx sy ∧
      PlacesExactly (initRPentomino s sx sy) rPentominoOffsets sx sy ∧
      PlacesExactly (initPentadecathlon s sx sy) pentadecathlonOffsets sx sy) ∧
    (gliderOffsets.length = 5 ∧ blockOffsets.length = 4 ∧ rPentominoOffsets.length = 5 ∧
      pentadecathlonOffsets.length = 12) ∧
    ((initGlider s sx sy).grid = (initGlider new sx sy).grid ∧
      (initBlock s sx sy).grid = (initBlock new sx sy).grid ∧
      (initRPentomino s sx sy).grid = (initRPentomino new sx sy).grid ∧
      (initPentadecathlon s sx sy).grid = (initPentadecathlon new sx sy).grid) ∧
    (initPentadecathlon s sx sy).grid =
      (setCells (clear s) (placed pentadecathlonOffsets sx sy)).grid := by
  have hloop : ∀ t : State, WellFormed t.grid → WellFormed (pentaLoop t sx sy).grid :=
    fun t ht => (pentaLoop_frame t ht sx sy).1
  have pg : ∀ t : State, WellFormed t.grid →
      PlacesExactly (initGlider t sx sy) gliderOffsets sx sy := by
    intro t ht
    rw [initGlider_placed]
    exact placesExactly_setCells t ht _ (by decide) sx sy
  have pb : ∀ t : State, WellFormed t.grid →
      PlacesExactly (initBlock t sx sy) blockOffsets sx sy := by
    intro t ht
    rw [initBlock_placed]
    exact placesExactly_setCells t ht _ (by decide) sx sy
  have pr : ∀ t : State, WellFormed t.grid →
      PlacesExactly (initRPentomino t sx sy) rPentominoOffsets sx sy := by
    intro t ht
    rw [initRPentomino_placed]
    exact placesExactly_setCells t ht _ (by decide) sx sy
  have pp : ∀ t : State, WellFormed t.grid →
      PlacesExactly (initPentadecathlon t sx sy) pentadecathlonOffsets sx sy := by
    intro t ht
    rw [initPentadecathlon_placed]
    exact placesExactly_setCells _ (hloop t ht) _ (by decide) sx sy
  have hnew := wellFormed_new_grid
  refine ⟨⟨pg s hg, pb s hg, pr s hg, pp s hg⟩, ⟨rfl, rfl, rfl, rfl⟩, ⟨?_, ?_, ?_, ?_⟩, ?_⟩
  · exact grid_eq_of_placesExactly (wellFormed_initGlider hg sx sy)
      (wellFormed_initGlider hnew sx sy) (pg s hg) (pg new hnew)
  · exact grid_eq_of_placesExactly (wellFormed_initBlock hg sx sy)
      (wellFormed_initBlock hnew sx sy) (pb s hg) (pb new hnew)
  · exact grid_eq_of_placesExactly (wellFormed_initRPentomino hg sx sy)
      (wellFormed_initRPentomino hnew sx sy) (pr s hg) (pr new hnew)
  · exact grid_eq_of_placesExactly (wellFormed_initPentadecathlon hg sx sy)
      (wellFormed_initPentadecathlon hnew sx sy) (pp s hg) (pp new hnew)
  · exact grid_eq_of_placesExactly (wellFormed_initPentadecathlon hg sx sy)
      (wellFormed_setCells (wellFormed_clear hg) _) (pp s hg)
      (placesExactly_setCells s hg _ (by decide) sx sy)

/-- Witness for C12: the glider at the anchor `(50, 50)` used by `main`, on the
fresh engine, has five alive cells. -/
theorem initializers_place_exactly_witness :
    WellFormed new.grid ∧ (∀ d ∈ gliderOffsets, InRange (50 + d.1) (50 + d.2)) ∧
      aliveCount (initGlider new 50 50) = gliderOffsets.length ∧
      (initGlider new 50 50).generation = 0 :=
  ⟨wellFormed_new_grid, by decide,
    (initializers_place_exactly new wellFormed_new_grid 50 50).1.1.2.2 (by decide),
    (initializers_place_exactly new wellFormed_new_grid 50 50).1.1.1⟩

/-- C14: `setBoundaryCondition` and `setRule` are pure setters. Each changes only
its own field and leaves both buffers, every cell, the generation and the other
mode flag as they were; the next `update` counts neighbours under the boundary
condition just set and applies the rule just set. -/
theorem setters_spec (s : State) (bc : BoundaryCondition) (rule : Rule) :
    ((setBoundaryCondition s bc).grid = s.grid ∧
      (setBoundaryCondition s bc).nextGrid = s.nextGrid ∧
      (setBoundaryCondition s bc).generation = s.generation ∧
      (setBoundaryCondition s bc).currentRule = s.currentRule ∧
      (setBoundaryCondition s bc).boundaryCondition = bc) ∧
    ((setRule s rule).grid = s.grid ∧ (setRule s rule).nextGrid = s.nextGrid ∧
      (setRule s rule).generation = s.generation ∧
      (setRule s rule).boundaryCondition = s.boundaryCondition ∧
      (setRule s rule).currentRule = rule) ∧
    (∀ x y : Int, getCell (setBoundaryCondition s bc) x y = getCell s x y ∧
      getCell (setRule s rule) x y = getCell s x y) ∧
    (WellFormed s.nextGrid → ∀ x y : Int, InRange x y →
      getCell (update (setBoundaryCondition s bc)) x y =
          applyRule s.currentRule (getCell s x y) (neighborCountUnder bc s x y) ∧
        getCell (update (setRule s rule)) x y =
          applyRule rule (getCell s x y) (countNeighbors s x y)) := by
  refine ⟨⟨rfl, rfl, rfl, rfl, rfl⟩, ⟨rfl, rfl, rfl, rfl, rfl⟩, ?_, ?_⟩
  · intro x y
    exact ⟨getCell_setBoundaryCondition s bc x y, getCell_setRule s rule x y⟩
  · intro hn x y h
    constructor
    · rw [getCell_update_applyRule (setBoundaryCondition s bc) hn h,
        countNeighbors_setBoundaryCondition, getCell_setBoundaryCondition]
      rfl
    · rw [getCell_update_applyRule (setRule s rule) hn h, countNeighbors_setRule,
        getCell_setRule]
      rfl

/-- Witness for C14 on the fresh engine, cell `(3, 5)`. -/
theorem setters_spec_witness :
    WellFormed new.nextGrid ∧ InRange 3 5 ∧
      getCell (update (setBoundaryCondition new BoundaryCondition.REFLECTIVE)) 3 5 =
        applyRule new.currentRule (getCell new 3 5)
          (neighborCountUnder BoundaryCondition.REFLECTIVE new 3 5) ∧
      getCell (update (setRule new Rule.CUSTOM)) 3 5 =
        applyRule Rule.CUSTOM (getCell new 3 5) (countNeighbors new 3 5) :=
  ⟨wellFormed_new_nextGrid, by decide,
    (setters_spec new BoundaryCondition.REFLECTIVE Rule.CUSTOM).2.2.2 wellFormed_new_nextGrid
      3 5 (by decide)⟩

/-- C15: the double buffer is load-bearing. On the top-row blinker under the
dead-border boundary and the Conway rule, `update` keeps cell `(1, 0)` alive while
the in-place raster pass kills it, so there is a configuration on which the two
passes differ in at least one cell. -/
theorem double_buffer_load_bearing :
    (getCell (update inPlaceExample) 1 0 = true ∧
      getCell (updateInPlace inPlaceExample) 1 0 = false) ∧
    ∃ s : State, WellFormed s.grid ∧ WellFormed s.nextGrid ∧
      ∃ x y : Int, InRange x y ∧ getCell (update s) x y ≠ getCell (updateInPlace s) x y := by
  refine ⟨⟨getCell_update_inPlaceExample, getCell_updateInPlace_inPlaceExample⟩,
    inPlaceExample, inPlaceExample_grid, inPlaceExample_nextGrid, 1, 0, by decide, ?_⟩
  rw [getCell_update_inPlaceExample, getCell_updateInPlace_inPlaceExample]
  decide

/-- C16: shape invariant. In every state reached from the constructor by any
sequence of `clear`, `setCell`, `setBoundaryCondition`, `setRule`, `update` and the
four initialisers, `grid` and `nextGrid` both have exactly 200 rows of exactly 200
cells, so every in-range index of either buffer is a valid index. -/
theorem shape_invariant (ops : List Op) :
    ((run ops new).grid.length = 200 ∧ ∀ row ∈ (run ops new).grid, row.length = 200) ∧
    ((run ops new).nextGrid.length = 200 ∧
      ∀ row ∈ (run ops new).nextGrid, row.length = 200) ∧
    (∀ x y : Int, InRange x y →
      (∃ b, readCell (run ops new).grid x y = some b) ∧
        (∃ b, readCell (run ops new).nextGrid x y = some b)) := by
  have h := wellFormed_run ops new wellFormed_new_grid wellFormed_new_nextGrid
  exact ⟨wellFormed_rows h.1, wellFormed_rows h.2,
    fun x y hxy => ⟨readCell_of_wellFormed h.1 hxy, readCell_of_wellFormed h.2 hxy⟩⟩

/-- Witness for C16: a glider placed, stepped once and edited. -/
theorem shape_invariant_witness :
    InRange 199 199 ∧
      (run [Op.initGlider 50 50, Op.update, Op.setCell 3 3 true] new).grid.length = 200 ∧
      (∃ b, readCell (run [Op.initGlider 50 50, Op.update, Op.setCell 3 3 true] new).nextGrid
        199 199 = some b) :=
  ⟨by decide,
    (shape_invariant [Op.initGlider 50 50, Op.update, Op.setCell 3 3 true]).1.1,
    ((shape_invariant [Op.initGlider 50 50, Op.update, Op.setCell 3 3 true]).2.2 199 199
      (by decide)).2⟩

/-- C17: for every state, either boundary condition and every in-range cell,
`countNeighbors` lies between 0 and 8, and the cell itself is not counted:
writing any value into `grid[y][x]`, in particular the flipped one, leaves
`countNeighbors(x, y)` unchanged. -/
theorem countNeighbors_range_and_self (s : State) (x y : Int) (h : InRange x y) :
    0 ≤ countNeighbors s x y ∧ countNeighbors s x y ≤ 8 ∧
      (∀ a : Bool, countNeighbors (setCell s x y a) x y = countNeighbors s x y) ∧
      countNeighbors (setCell s x y (!getCell s x y)) x y = countNeighbors s x y :=
  ⟨(countNeighbors_bounds s x y).1, (countNeighbors_bounds s x y).2,
    countNeighbors_setCell_self s x y h, countNeighbors_setCell_self s x y h _⟩

/-- Witness for C17 at the corner cell `(0, 0)` of the top-row blinker. -/
theorem countNeighbors_range_and_self_witness :
    InRange 0 0 ∧ countNeighbors inPlaceExample 0 0 ≤ 8 ∧
      countNeighbors (setCell inPlaceExample 0 0 (!getCell inPlaceExample 0 0)) 0 0 =
        countNeighbors inPlaceExample 0 0 :=
  ⟨by decide, (countNeighbors_range_and_self inPlaceExample 0 0 (by decide)).2.1,
    (countNeighbors_range_and_self inPlaceExample 0 0 (by decide)).2.2.2⟩

/-- C18: `setCell` then `getCell` round trip with frame. On a 200 by 200 grid and
an in-range cell, `getCell` returns the value just set, every other cell reads as
before, and generation, boundary condition, rule and write buffer are unchanged. -/
theorem setCell_getCell_roundtrip (s : State) (hg : WellFormed s.grid) (x y : Int)
    (h : InRange x y) (a : Bool) :
    getCell (setCell s x y a) x y = a ∧
    (∀ x2 y2 : Int, (x2, y2) ≠ (x, y) → getCell (setCell s x y a) x2 y2 = getCell s x2 y2) ∧
    (setCell s x y a).generation = s.generation ∧
    (setCell s x y a).boundaryCondition = s.boundaryCondition ∧
    (setCell s x y a).currentRule = s.currentRule ∧
    (setCell s x y a).nextGrid = s.nextGrid := by
  refine ⟨?_, ?_, setCell_generation s x y a, setCell_boundaryCondition s x y a,
    setCell_currentRule s x y a, setCell_nextGrid s x y a⟩
  · rw [getCell_setCell s hg x y a h, if_pos ⟨rfl, rfl⟩]
  · intro x2 y2 hne
    rw [getCell_setCell s hg x y a h, if_neg]
    intro hc
    exact hne (by rw [hc.1, hc.2])

/-- Witness for C18 on the fresh engine. -/
theorem setCell_getCell_roundtrip_witness :
    WellFormed new.grid ∧ InRange 3 5 ∧ getCell (setCell new 3 5 true) 3 5 = true ∧
      ((4 : Int), (5 : Int)) ≠ (3, 5) ∧
      getCell (setCell new 3 5 true) 4 5 = getCell new 4 5 :=
  ⟨wellFormed_new_grid, by decide,
    (setCell_getCell_roundtrip new wellFormed_new_grid 3 5 (by decide) true).1, by decide,
    (setCell_getCell_roundtrip new wellFormed_new_grid 3 5 (by decide) true).2.1 4 5
      (by decide)⟩

/-- C19: the stale write buffer is never observable. Two states that agree on
grid, boundary condition, rule and generation, with arbitrary 200 by 200 write
buffers, give the same grid, generation, boundary condition and rule after
`update`; after `update` the write buffer holds exactly the pre-step grid; and
`clear` does not touch the write buffer. -/
theorem stale_buffer_unobservable (s t : State) (hs : WellFormed s.nextGrid)
    (ht : WellFormed t.nextGrid) (hgrid : s.grid = t.grid)
    (hbc : s.boundaryCondition = t.boundaryCondition)
    (hrule : s.currentRule = t.currentRule) (hgen : s.generation = t.generation) :
    (update s).grid = (update t).grid ∧
    (update s).generation = (update t).generation ∧
    (update s).boundaryCondition = (update t).boundaryCondition ∧
    (update s).currentRule = (update t).currentRule ∧
    (update s).nextGrid = s.grid ∧ (update t).nextGrid = t.grid ∧
    (clear s).nextGrid = s.nextGrid := by
  refine ⟨?_, ?_, ?_, ?_, update_nextGrid s, update_nextGrid t, clear_nextGrid s⟩
  · rw [update_grid, update_grid, rasterPass_eq_of_wellFormed _ hs ht]
    exact rasterPass_congr _ _ _ (fun x y _ => nextCell_congr s t hgrid hbc hrule x y)
  · rw [update_generation, update_generation, hgen]
  · rw [update_boundaryCondition, update_boundaryCondition, hbc]
  · rw [update_currentRule, update_currentRule, hrule]

/-- Witness for C19: the fresh engine against a cleared engine whose write buffer
still holds a block. -/
theorem stale_buffer_unobservable_witness :
    WellFormed new.nextGrid ∧ WellFormed staleExample.nextGrid ∧
      new.grid = staleExample.grid ∧ (update new).grid = (update staleExample).grid :=
  ⟨wellFormed_new_nextGrid, staleExample_facts.1, staleExample_facts.2.1,
    (stale_buffer_unobservable new staleExample wellFormed_new_nextGrid staleExample_facts.1
      staleExample_facts.2.1 staleExample_facts.2.2.1 staleExample_facts.2.2.2.1
      staleExample_facts.2.2.2.2).1⟩

end GameOfLife
